import Mathlib

/-!
Verification of the schema-aware property translation and pagination engine
of the Notion_API repository.

The pagination drivers are translated from `notion_client/helpers.py`
(`iterate_paginated_api`, `collect_paginated_api`,
`async_iterate_paginated_api`, `async_collect_paginated_api`), and the
schema-driven codec from `notion_sugar/functional/crud.py`
(`DatabaseQuery.generate_valid_data`, `_format_property`, `add_row`,
`_update_schema`, `query`).

Modelling conventions:
* Python values that flow through the codec are modelled by the inductive
  `PyVal` (strings, integers, booleans, `None`, lists, dicts with string
  keys, and `datetime` objects abbreviated to their ISO string).  Python
  floats are abstracted to integers: the codec never computes with the
  number, it only succeeds or fails to coerce, and `float(...)` literal
  parsing is abbreviated to integer-literal parsing.
* Falsible Python operations (`x[i]`, `x.get(...)` on a non-dict,
  `float(x)`, iteration over a non-iterable, `in` on a non-container)
  are modelled with `Except PyErr`; an uncaught error aborts the caller
  exactly as a raised exception does.
* `print`ed user-visible messages are modelled by the structured `Warn`
  type so that theorems can speak about which warnings a call reports.
* Page responses of the paginated API are modelled by the structure
  `PageResponse` (`results`, `has_more`, `next_cursor`), matching the
  response shape of the query endpoint; cursors are strings as in the
  wire protocol.  Generators are modelled with explicit fuel: a driver
  returns `some items` when it terminates within the given number of
  fetches and `none` when the fuel is exhausted.
-/

/-- Python runtime errors that the modelled code can raise. -/
inductive PyErr where
  | typeError
  | valueError
  | attributeError
  | keyError
  | indexError
deriving DecidableEq, Repr

/-- Python values flowing through the codec (see the header for the
abbreviations: floats as integers, datetimes as their ISO string). -/
inductive PyVal where
  | str (s : String)
  | int (n : Int)
  | bool (b : Bool)
  | none
  | list (xs : List PyVal)
  | dict (fields : List (String × PyVal))
  | datetime (iso : String)

mutual

/-- Structural equality on `PyVal`, modelling Python `==` on the values the
codec compares (strings against strings, etc.).  Python's numeric
cross-type equality (`True == 1`) and order-insensitive dict equality are
not modelled; no code path compared here relies on them. -/
def pyBeq : PyVal → PyVal → Bool
  | PyVal.str a, PyVal.str b => a == b
  | PyVal.int a, PyVal.int b => a == b
  | PyVal.bool a, PyVal.bool b => a == b
  | PyVal.none, PyVal.none => true
  | PyVal.datetime a, PyVal.datetime b => a == b
  | PyVal.list xs, PyVal.list ys => pyBeqList xs ys
  | PyVal.dict fs, PyVal.dict gs => pyBeqFields fs gs
  | _, _ => false

def pyBeqList : List PyVal → List PyVal → Bool
  | [], [] => true
  | x :: xs, y :: ys => pyBeq x y && pyBeqList xs ys
  | _, _ => false

def pyBeqFields : List (String × PyVal) → List (String × PyVal) → Bool
  | [], [] => true
  | (k, v) :: fs, (l, w) :: gs => k == l && pyBeq v w && pyBeqFields fs gs
  | _, _ => false

end

instance : BEq PyVal := ⟨pyBeq⟩

/-- Python truthiness (`bool(x)` / `if x:`). -/
def pyTruthy : PyVal → Bool
  | PyVal.str s => !(s == "")
  | PyVal.int n => !(n == 0)
  | PyVal.bool b => b
  | PyVal.none => false
  | PyVal.list xs => !xs.isEmpty
  | PyVal.dict fs => !fs.isEmpty
  | PyVal.datetime _ => true

mutual

/-- Python `str(x)`.  `str` of a datetime is abbreviated to its stored ISO
string. -/
def pyStr : PyVal → String
  | PyVal.str s => s
  | PyVal.int n => toString n
  | PyVal.bool b => if b then "True" else "False"
  | PyVal.none => "None"
  | PyVal.datetime iso => iso
  | PyVal.list xs => "[" ++ pyReprList xs ++ "]"
  | PyVal.dict fs => "\x7b" ++ pyReprFields fs ++ "\x7d"

/-- Python `repr(x)`, as used by `str` on list/dict elements. -/
def pyRepr : PyVal → String
  | PyVal.str s => "\x27" ++ s ++ "\x27"
  | PyVal.int n => toString n
  | PyVal.bool b => if b then "True" else "False"
  | PyVal.none => "None"
  | PyVal.datetime iso => iso
  | PyVal.list xs => "[" ++ pyReprList xs ++ "]"
  | PyVal.dict fs => "\x7b" ++ pyReprFields fs ++ "\x7d"

def pyReprList : List PyVal → String
  | [] => ""
  | [x] => pyRepr x
  | x :: y :: xs => pyRepr x ++ ", " ++ pyReprList (y :: xs)

def pyReprFields : List (String × PyVal) → String
  | [] => ""
  | [(k, v)] => "\x27" ++ k ++ "\x27: " ++ pyRepr v
  | (k, v) :: f :: fs => "\x27" ++ k ++ "\x27: " ++ pyRepr v ++ ", " ++ pyReprFields (f :: fs)

end

/-- Python `float(x)`: succeeds on numbers, booleans and numeric strings,
raises `TypeError` on `None`/lists/dicts and `ValueError` on non-numeric
strings.  Floats are abstracted to integers (see header). -/
def pyFloat : PyVal → Except PyErr PyVal
  | PyVal.int n => Except.ok (PyVal.int n)
  | PyVal.bool b => Except.ok (PyVal.int (if b then 1 else 0))
  | PyVal.str s =>
    match s.toInt? with
    | some n => Except.ok (PyVal.int n)
    | Option.none => Except.error PyErr.valueError
  | _ => Except.error PyErr.typeError

/-- Python `x.get(k, dflt)`: only dicts have `.get`; on anything else the
attribute lookup raises `AttributeError`. -/
def pyGetD (v : PyVal) (k : String) (dflt : PyVal) : Except PyErr PyVal :=
  match v with
  | PyVal.dict fs => Except.ok ((List.lookup k fs).getD dflt)
  | _ => Except.error PyErr.attributeError

/-- Python subscription `v[idx]` for the shapes the code uses (dict by
string key, list/str by non-negative index; negative indices are not
exercised by the modelled code and raise here). -/
def pySubscript (v : PyVal) (idx : PyVal) : Except PyErr PyVal :=
  match v, idx with
  | PyVal.dict fs, PyVal.str k =>
    match List.lookup k fs with
    | some w => Except.ok w
    | Option.none => Except.error PyErr.keyError
  | PyVal.dict _, _ => Except.error PyErr.keyError
  | PyVal.list xs, PyVal.int n =>
    if h : 0 ≤ n ∧ n.toNat < xs.length then Except.ok (xs.get ⟨n.toNat, h.2⟩)
    else Except.error PyErr.indexError
  | PyVal.list _, _ => Except.error PyErr.typeError
  | PyVal.str s, PyVal.int n =>
    if 0 ≤ n ∧ n.toNat < s.length then
      Except.ok (PyVal.str (String.mk [s.data.getD n.toNat (Char.ofNat 32)]))
    else Except.error PyErr.indexError
  | _, _ => Except.error PyErr.typeError

/-- Python membership `x in container` for lists (element equality), dicts
(key membership) and strings (substring); other containers raise. -/
def pyIn (x : PyVal) (container : PyVal) : Except PyErr Bool :=
  match container with
  | PyVal.list ys => Except.ok (ys.any (fun y => y == x))
  | PyVal.dict fs => Except.ok (fs.any (fun p => PyVal.str p.1 == x))
  | PyVal.str s =>
    match x with
    | PyVal.str t => Except.ok (decide (List.IsInfix t.toList s.toList))
    | _ => Except.error PyErr.typeError
  | _ => Except.error PyErr.typeError

/-- Python iteration `for x in v`: lists yield elements, strings yield
1-character strings, dicts yield their keys; the rest raise `TypeError`. -/
def pyIterate : PyVal → Except PyErr (List PyVal)
  | PyVal.list xs => Except.ok xs
  | PyVal.str s => Except.ok (s.data.map (fun c => PyVal.str (String.mk [c])))
  | PyVal.dict fs => Except.ok (fs.map (fun p => PyVal.str p.1))
  | _ => Except.error PyErr.typeError

/-- Python dict assignment `d[k] = v`: replace in place if the key exists,
append otherwise. -/
def dictSet : List (String × β) → String → β → List (String × β)
  | [], k, v => [(k, v)]
  | (k0, v0) :: rest, k, v =>
    if k0 == k then (k, v) :: rest else (k0, v0) :: dictSet rest k v

/-- Python `d.update(upd)`: assign every pair of `upd` into `d` in order. -/
def dictUpdate (d : List (String × β)) (upd : List (String × β)) : List (String × β) :=
  upd.foldl (fun acc p => dictSet acc p.1 p.2) d

/-! ## Pagination driver (`notion_client/helpers.py`) -/

/-- A page response of the paginated API: the shape
`{results, has_more, next_cursor}` that the query endpoint returns
(§6 of the spec); the cursor is a string or null. -/
structure PageResponse (α : Type) where
  results : List α
  has_more : Bool
  next_cursor : Option String
deriving DecidableEq, Repr

/-- Python falsiness of the cursor slot, as tested by
`not next_cursor` in `iterate_paginated_api`: `None` and the empty string
are falsy. -/
def cursorFalsy : Option String → Bool
  | Option.none => true
  | some s => s == ""

/-- `iterate_paginated_api` (helpers.py lines 59-72): repeatedly fetch,
yield every item of `results`, stop when `not has_more or not next_cursor`.
The `fuel` argument bounds the number of fetches; `none` means the loop
did not terminate within `fuel` fetches. -/
def iterate_paginated_api (f : Option String → PageResponse α) :
    Option String → Nat → Option (List α)
  | _, 0 => Option.none
  | cursor, fuel + 1 =>
    let r := f cursor
    if (!r.has_more) || cursorFalsy r.next_cursor then some r.results
    else
      match iterate_paginated_api f r.next_cursor fuel with
      | Option.none => Option.none
      | some rest => some (r.results ++ rest)

/-- `collect_paginated_api` (helpers.py lines 75-77): collect the whole
iteration into a list. -/
def collect_paginated_api (f : Option String → PageResponse α)
    (cursor : Option String) (fuel : Nat) : Option (List α) :=
  iterate_paginated_api f cursor fuel

/-- `async_iterate_paginated_api` (helpers.py lines 80-93): identical loop
except that the stop test is `(not response["has_more"]) | (next_cursor is
None)` — the cursor is only compared against `None`, not for falsiness. -/
def async_iterate_paginated_api (f : Option String → PageResponse α) :
    Option String → Nat → Option (List α)
  | _, 0 => Option.none
  | cursor, fuel + 1 =>
    let r := f cursor
    if (!r.has_more) || r.next_cursor.isNone then some r.results
    else
      match async_iterate_paginated_api f r.next_cursor fuel with
      | Option.none => Option.none
      | some rest => some (r.results ++ rest)

/-- `async_collect_paginated_api` (helpers.py lines 96-100). -/
def async_collect_paginated_api (f : Option String → PageResponse α)
    (cursor : Option String) (fuel : Nat) : Option (List α) :=
  async_iterate_paginated_api f cursor fuel

/-- The sequence of cursors `iterate_paginated_api` passes to `function`,
one per fetch, under the same fuel discipline. -/
def iterateFetches (f : Option String → PageResponse α) :
    Option String → Nat → Option (List (Option String))
  | _, 0 => Option.none
  | cursor, fuel + 1 =>
    let r := f cursor
    if (!r.has_more) || cursorFalsy r.next_cursor then some [cursor]
    else
      match iterateFetches f r.next_cursor fuel with
      | Option.none => Option.none
      | some rest => some (cursor :: rest)

/-- The sequence of cursors `async_iterate_paginated_api` passes to
`function`. -/
def asyncFetches (f : Option String → PageResponse α) :
    Option String → Nat → Option (List (Option String))
  | _, 0 => Option.none
  | cursor, fuel + 1 =>
    let r := f cursor
    if (!r.has_more) || r.next_cursor.isNone then some [cursor]
    else
      match asyncFetches f r.next_cursor fuel with
      | Option.none => Option.none
      | some rest => some (cursor :: rest)

/-- Cursor naming scheme for the chained-page scenario: page `j` is
addressed by a string of length `j` (nonempty for every `j ≥ 1`). -/
def idxCursor (j : Nat) : String := String.mk (List.replicate j 'x')

/-- The chained-page scenario of the spec's pagination property: page `i`
holds the items `ps[i]`, reports `has_more = true` with a cursor for page
`i+1` while pages remain, and `has_more = false` on the last page. -/
def chainPage (ps : List (List α)) (i : Nat) : PageResponse α :=
  { results := ps.getD i [],
    has_more := decide (i + 1 < ps.length),
    next_cursor := if i + 1 < ps.length then some (idxCursor (i + 1)) else Option.none }

/-- Fetch function of the chained-page scenario: the start cursor fetches
page 0, the cursor of length `j` fetches page `j`. -/
def chainFetch (ps : List (List α)) : Option String → PageResponse α
  | Option.none => chainPage ps 0
  | some s => chainPage ps s.length

/-- Fetch function separating the two drivers: the first page reports
`has_more = true` with the empty string as `next_cursor`; any further
fetch returns a final page with one more item. -/
def emptyCursorFetch : Option String → PageResponse Nat
  | Option.none => ⟨[0], true, some ""⟩
  | some _ => ⟨[1], false, Option.none⟩

/-! ## Schema model and property codec (`notion_sugar/functional/crud.py`) -/

/-- One cached schema entry of `DatabaseQuery.schema`.  In the source the
entry is the raw property dict of the describe-database response; the
fields modelled here are exactly the parts the code reads:
`type` is `entry["type"]`, `selectOptions` is the list of the `"name"`
values of `entry.get("select", {}).get("options", [])`, and
`multiSelectOptions` likewise for `"multi_select"`.  Entries created by
`_update_schema` are `{"type": t}`, i.e. both option lists empty. -/
structure PropDef where
  type : String
  selectOptions : List PyVal
  multiSelectOptions : List PyVal

/-- A cached schema: Python dict from property name to definition,
in insertion order. -/
abbrev Schema := List (String × PropDef)

/-- The user-visible messages the modelled code `print`s. -/
inductive Warn where
  | fieldNotInSchema (name : String)
  | selectNotFound (name : String) (value : PyVal)
  | multiSelectNotFound (name : String) (value : PyVal)
  | unsupportedType (ftype : String) (name : String)
  | newProperty (name : String) (ftype : String)
  | schemaUpdated (names : List String)
  | schemaUpdateFailed
  | skippedNoProps (pageId : PyVal)
  | queryError (e : PyErr)

/-- The property kinds `generate_valid_data` and `_format_property`
branch on (the `elif` chain of crud.py lines 39-67 / 118-137). -/
def encodeKinds : List String :=
  ["title", "rich_text", "select", "multi_select", "date", "checkbox",
   "number", "url", "email", "phone_number"]

/-- One iteration of the `generate_valid_data` loop (crud.py lines 32-69)
for field `field_name` with value `field_value`: either an encoded wire
property, or no output plus the warning the code prints, or a raised
error. -/
def encodeField (schema : Schema) (field_name : String) (field_value : PyVal) :
    Except PyErr (Option PyVal × List Warn) :=
  match List.lookup field_name schema with
  | Option.none => Except.ok (Option.none, [Warn.fieldNotInSchema field_name])
  | some d =>
    if d.type == "title" then
      Except.ok (some (PyVal.dict [("title", PyVal.list [PyVal.dict
        [("text", PyVal.dict [("content", PyVal.str (pyStr field_value))])]])]), [])
    else if d.type == "rich_text" then
      Except.ok (some (PyVal.dict [("rich_text", PyVal.list [PyVal.dict
        [("text", PyVal.dict [("content", PyVal.str (pyStr field_value))])]])]), [])
    else if d.type == "select" then
      if d.selectOptions.any (fun o => o == field_value) then
        Except.ok (some (PyVal.dict [("select", PyVal.dict [("name", field_value)])]), [])
      else
        Except.ok (Option.none, [Warn.selectNotFound field_name field_value])
    else if d.type == "multi_select" then
      match d.multiSelectOptions.filterM (fun o => pyIn o field_value) with
      | Except.error e => Except.error e
      | Except.ok selected =>
        if selected.isEmpty then
          Except.ok (Option.none, [Warn.multiSelectNotFound field_name field_value])
        else
          Except.ok (some (PyVal.dict [("multi_select",
            PyVal.list (selected.map (fun o => PyVal.dict [("name", o)])))]), [])
    else if d.type == "date" then
      Except.ok (some (PyVal.dict [("date", PyVal.dict [("start",
        PyVal.str (match field_value with
          | PyVal.datetime iso => iso
          | v => pyStr v))])]), [])
    else if d.type == "checkbox" then
      Except.ok (some (PyVal.dict [("checkbox", PyVal.bool (pyTruthy field_value))]), [])
    else if d.type == "number" then
      match pyFloat field_value with
      | Except.error e => Except.error e
      | Except.ok f => Except.ok (some (PyVal.dict [("number", f)]), [])
    else if d.type == "url" then
      Except.ok (some (PyVal.dict [("url", PyVal.str (pyStr field_value))]), [])
    else if d.type == "email" then
      Except.ok (some (PyVal.dict [("email", PyVal.str (pyStr field_value))]), [])
    else if d.type == "phone_number" then
      Except.ok (some (PyVal.dict [("phone_number", PyVal.str (pyStr field_value))]), [])
    else
      Except.ok (Option.none, [Warn.unsupportedType d.type field_name])

/-- `DatabaseQuery.generate_valid_data` (crud.py lines 28-71): encode the
input fields in order; a skipped field contributes no output entry and one
warning; a raised error aborts the whole call. -/
def generate_valid_data (schema : Schema) :
    List (String × PyVal) → Except PyErr (List (String × PyVal) × List Warn)
  | [] => Except.ok ([], [])
  | (n, v) :: rest =>
    match encodeField schema n v with
    | Except.error e => Except.error e
    | Except.ok (ent, ws) =>
      match generate_valid_data schema rest with
      | Except.error e => Except.error e
      | Except.ok (out, ws2) =>
        Except.ok ((match ent with
          | some w => [(n, w)]
          | Option.none => []) ++ out, ws ++ ws2)

/-- `DatabaseQuery._format_property` (crud.py lines 116-139): the permissive
per-field encoder used by `add_row`/`update_row`; note the final `else`
returns a rich_text encoding for any unrecognised type string. -/
def _format_property (field_type : String) (value : PyVal) : Except PyErr PyVal :=
  if field_type == "title" then
    Except.ok (PyVal.dict [("title", PyVal.list [PyVal.dict
      [("text", PyVal.dict [("content", PyVal.str (pyStr value))])]])])
  else if field_type == "rich_text" then
    Except.ok (PyVal.dict [("rich_text", PyVal.list [PyVal.dict
      [("text", PyVal.dict [("content", PyVal.str (pyStr value))])]])])
  else if field_type == "select" then
    Except.ok (PyVal.dict [("select", PyVal.dict [("name", PyVal.str (pyStr value))])])
  else if field_type == "multi_select" then
    Except.ok (PyVal.dict [("multi_select",
      match value with
      | PyVal.list xs => PyVal.list (xs.map (fun x => PyVal.dict [("name", x)]))
      | _ => PyVal.list [])])
  else if field_type == "date" then
    Except.ok (PyVal.dict [("date", PyVal.dict [("start", value)])])
  else if field_type == "checkbox" then
    Except.ok (PyVal.dict [("checkbox", PyVal.bool (pyTruthy value))])
  else if field_type == "number" then
    match pyFloat value with
    | Except.error e => Except.error e
    | Except.ok f => Except.ok (PyVal.dict [("number", f)])
  else if field_type == "url" then
    Except.ok (PyVal.dict [("url", PyVal.str (pyStr value))])
  else if field_type == "email" then
    Except.ok (PyVal.dict [("email", PyVal.str (pyStr value))])
  else if field_type == "phone_number" then
    Except.ok (PyVal.dict [("phone_number", PyVal.str (pyStr value))])
  else
    Except.ok (PyVal.dict [("rich_text", PyVal.list [PyVal.dict
      [("text", PyVal.dict [("content", PyVal.str (pyStr value))])]])])

/-- `DatabaseQuery._update_schema` (crud.py lines 100-114): format every
new property as `{"type": t}`, send the patch, and on success merge the
formatted entries into the cached schema with `dict.update`; on failure
leave the schema untouched.  `patchSucceeds` is the outcome of the
`databases.update` transport call. -/
def _update_schema (schema : Schema) (new_properties : List (String × String))
    (patchSucceeds : Bool) : Schema × List Warn :=
  let formatted := new_properties.map (fun p => (p.1, PropDef.mk p.2 [] []))
  if patchSucceeds then
    (dictUpdate schema formatted, [Warn.schemaUpdated (new_properties.map (fun p => p.1))])
  else
    (schema, [Warn.schemaUpdateFailed])

/-- The per-field loop of `add_row`/`update_row` (crud.py lines 78-85 /
229-236): known fields are formatted with their schema type; unknown
fields resolve their type from `property_types` (default `rich_text`),
are recorded as new fields, and are formatted with the resolved type. -/
def addRowLoop (schema : Schema) (property_types : Option (List (String × String))) :
    List (String × PyVal) →
    Except PyErr (List (String × PyVal) × List (String × String) × List Warn)
  | [] => Except.ok ([], [], [])
  | (key, value) :: rest =>
    match List.lookup key schema with
    | some d =>
      match _format_property d.type value with
      | Except.error e => Except.error e
      | Except.ok w =>
        match addRowLoop schema property_types rest with
        | Except.error e => Except.error e
        | Except.ok (props, nf, ws) => Except.ok ((key, w) :: props, nf, ws)
    | Option.none =>
      let ftype := match property_types with
        | some pt => (List.lookup key pt).getD "rich_text"
        | Option.none => "rich_text"
      match _format_property ftype value with
      | Except.error e => Except.error e
      | Except.ok w =>
        match addRowLoop schema property_types rest with
        | Except.error e => Except.error e
        | Except.ok (props, nf, ws) =>
          Except.ok ((key, w) :: props, (key, ftype) :: nf, Warn.newProperty key ftype :: ws)

/-- Everything `add_row` has decided by the time it calls
`pages.create`: the encoded properties, the schema-patch request, the
cached schema after the (possibly failed) patch, and the reported
messages.  The `pages.create` transport call itself is outside the
modelled core. -/
structure AddRowEffects where
  properties : List (String × PyVal)
  new_fields : List (String × String)
  schema_after : Schema
  warnings : List Warn

/-- `DatabaseQuery.add_row` (crud.py lines 73-99) up to the
`pages.create` call: run the field loop, then patch the schema when new
fields were seen.  `update_row` (lines 224-250) performs the identical
loop and patch before its `pages.update` call. -/
def add_row (schema : Schema) (property_types : Option (List (String × String)))
    (kwargs : List (String × PyVal)) (patchSucceeds : Bool) :
    Except PyErr AddRowEffects :=
  match addRowLoop schema property_types kwargs with
  | Except.error e => Except.error e
  | Except.ok (props, nf, ws) =>
    if nf.isEmpty then Except.ok ⟨props, nf, schema, ws⟩
    else
      let r := _update_schema schema nf patchSucceeds
      Except.ok ⟨props, nf, r.1, ws ++ r.2⟩

/-! ## Decode direction: `DatabaseQuery.query` (crud.py lines 141-218) -/

/-- The rich_text branch of the query loop (crud.py lines 168-171):
first element's `text.content`, else the `""` placeholder. -/
def decodeRichText (value : PyVal) : Except PyErr PyVal :=
  match pyGetD value "rich_text" (PyVal.list []) with
  | Except.error e => Except.error e
  | Except.ok rtl =>
    if pyTruthy rtl then
      match pySubscript rtl (PyVal.int 0) with
      | Except.error e => Except.error e
      | Except.ok first =>
        match pyGetD first "text" (PyVal.dict []) with
        | Except.error e => Except.error e
        | Except.ok t =>
          match pyGetD t "content" PyVal.none with
          | Except.error e => Except.error e
          | Except.ok content =>
            Except.ok (if content == PyVal.none then PyVal.str "" else content)
    else Except.ok (PyVal.str "")

/-- The select branch (crud.py lines 172-175). -/
def decodeSelect (value : PyVal) : Except PyErr PyVal :=
  match pyGetD value "select" PyVal.none with
  | Except.error e => Except.error e
  | Except.ok sd =>
    match (if pyTruthy sd then pyGetD sd "name" PyVal.none else Except.ok PyVal.none) with
    | Except.error e => Except.error e
    | Except.ok name =>
      Except.ok (if name == PyVal.none then PyVal.str "" else name)

/-- The multi_select branch (crud.py lines 176-179): truthy option names,
else a singleton placeholder list. -/
def decodeMultiSelect (value : PyVal) : Except PyErr PyVal :=
  match pyGetD value "multi_select" (PyVal.list []) with
  | Except.error e => Except.error e
  | Except.ok ms =>
    match pyIterate ms with
    | Except.error e => Except.error e
    | Except.ok opts =>
      match opts.mapM (fun opt => pyGetD opt "name" PyVal.none) with
      | Except.error e => Except.error e
      | Except.ok rawNames =>
        let names := rawNames.filter pyTruthy
        Except.ok (if names.isEmpty then PyVal.list [PyVal.str ""] else PyVal.list names)

/-- The date branch (crud.py lines 180-183). -/
def decodeDate (value : PyVal) : Except PyErr PyVal :=
  match pyGetD value "date" (PyVal.dict []) with
  | Except.error e => Except.error e
  | Except.ok dv =>
    match (if pyTruthy dv then pyGetD dv "start" PyVal.none else Except.ok PyVal.none) with
    | Except.error e => Except.error e
    | Except.ok start =>
      Except.ok (if start == PyVal.none then PyVal.str "" else start)

/-- The checkbox branch (crud.py lines 184-186): always a two-valued
display, never the empty placeholder. -/
def decodeCheckbox (value : PyVal) : Except PyErr PyVal :=
  match pyGetD value "checkbox" PyVal.none with
  | Except.error e => Except.error e
  | Except.ok cb => Except.ok (PyVal.str (if pyTruthy cb then "✅" else "❌"))

/-- The number branch (crud.py lines 187-189). -/
def decodeNumber (value : PyVal) : Except PyErr PyVal :=
  match pyGetD value "number" PyVal.none with
  | Except.error e => Except.error e
  | Except.ok n => Except.ok (if n == PyVal.none then PyVal.str "" else n)

/-- The url branch (crud.py lines 190-192). -/
def decodeUrl (value : PyVal) : Except PyErr PyVal :=
  match pyGetD value "url" PyVal.none with
  | Except.error e => Except.error e
  | Except.ok u => Except.ok (if u == PyVal.none then PyVal.str "" else u)

/-- The email branch (crud.py lines 193-195). -/
def decodeEmail (value : PyVal) : Except PyErr PyVal :=
  match pyGetD value "email" PyVal.none with
  | Except.error e => Except.error e
  | Except.ok u => Except.ok (if u == PyVal.none then PyVal.str "" else u)

/-- The phone_number branch (crud.py lines 196-198). -/
def decodePhone (value : PyVal) : Except PyErr PyVal :=
  match pyGetD value "phone_number" PyVal.none with
  | Except.error e => Except.error e
  | Except.ok u => Except.ok (if u == PyVal.none then PyVal.str "" else u)

/-- The people branch (crud.py lines 199-202). -/
def decodePeople (value : PyVal) : Except PyErr PyVal :=
  match pyGetD value "people" (PyVal.list []) with
  | Except.error e => Except.error e
  | Except.ok people =>
    match pyIterate people with
    | Except.error e => Except.error e
    | Except.ok users =>
      match users.mapM (fun u => pyGetD u "name" PyVal.none) with
      | Except.error e => Except.error e
      | Except.ok rawNames =>
        let names := rawNames.filter pyTruthy
        Except.ok (if names.isEmpty then PyVal.list [PyVal.str ""] else PyVal.list names)

/-- The property kinds the query loop decodes (the `elif` chain of crud.py
lines 166-202); a schema entry with any other type string is passed over
without assigning a record key. -/
def decodeKinds : List String :=
  ["title", "rich_text", "select", "multi_select", "date", "checkbox",
   "number", "url", "email", "phone_number", "people"]

/-- Dispatch of the query loop on the schema-declared type: a handled kind
yields `some` display value (or raises), an unhandled kind yields
`Option.none` — no record key is assigned. -/
def decodeField (field_type : String) (value : PyVal) (title_value : PyVal) :
    Except PyErr (Option PyVal) :=
  if field_type == "title" then Except.map some (Except.ok title_value)
  else if field_type == "rich_text" then Except.map some (decodeRichText value)
  else if field_type == "select" then Except.map some (decodeSelect value)
  else if field_type == "multi_select" then Except.map some (decodeMultiSelect value)
  else if field_type == "date" then Except.map some (decodeDate value)
  else if field_type == "checkbox" then Except.map some (decodeCheckbox value)
  else if field_type == "number" then Except.map some (decodeNumber value)
  else if field_type == "url" then Except.map some (decodeUrl value)
  else if field_type == "email" then Except.map some (decodeEmail value)
  else if field_type == "phone_number" then Except.map some (decodePhone value)
  else if field_type == "people" then Except.map some (decodePeople value)
  else Except.ok Option.none

/-- Title extraction of the query loop (crud.py lines 155-159):
`properties["Name"]["title"][0]["text"]["content"]` guarded by the two
membership tests, defaulting to the literal fallback title. -/
def extractTitle (properties : PyVal) : Except PyErr PyVal :=
  match pyIn (PyVal.str "Name") properties with
  | Except.error e => Except.error e
  | Except.ok false => Except.ok (PyVal.str "Без названия")
  | Except.ok true =>
    match pySubscript properties (PyVal.str "Name") with
    | Except.error e => Except.error e
    | Except.ok nameVal =>
      match pyIn (PyVal.str "title") nameVal with
      | Except.error e => Except.error e
      | Except.ok false => Except.ok (PyVal.str "Без названия")
      | Except.ok true =>
        match pySubscript nameVal (PyVal.str "title") with
        | Except.error e => Except.error e
        | Except.ok titleParts =>
          if pyTruthy titleParts then
            match pySubscript titleParts (PyVal.int 0) with
            | Except.error e => Except.error e
            | Except.ok first =>
              match pyGetD first "text" (PyVal.dict []) with
              | Except.error e => Except.error e
              | Except.ok t => pyGetD t "content" (PyVal.str "Без названия")
          else Except.ok (PyVal.str "Без названия")

/-- The schema loop of `query` (crud.py lines 162-202) over one page's
properties, starting from the record seeded with `id` and `title`. -/
def decodeFields (properties : PyVal) (title_value : PyVal) :
    Schema → List (String × PyVal) → Except PyErr (List (String × PyVal))
  | [], record => Except.ok record
  | (fname, d) :: rest, record =>
    match pyGetD properties fname (PyVal.dict []) with
    | Except.error e => Except.error e
    | Except.ok value =>
      match decodeField d.type value title_value with
      | Except.error e => Except.error e
      | Except.ok Option.none => decodeFields properties title_value rest record
      | Except.ok (some dv) => decodeFields properties title_value rest (dictSet record fname dv)

/-- The entry loop of `query` (crud.py lines 147-204): an entry whose
`properties` are falsy is skipped with a reported message; otherwise a
record is assembled from the title and the schema loop. -/
def queryEntries (schema : Schema) :
    List PyVal → Except PyErr (List (List (String × PyVal)) × List Warn)
  | [] => Except.ok ([], [])
  | entry :: rest =>
    match pyGetD entry "id" (PyVal.str "") with
    | Except.error e => Except.error e
    | Except.ok pageId =>
      match pyGetD entry "properties" (PyVal.dict []) with
      | Except.error e => Except.error e
      | Except.ok properties =>
        if pyTruthy properties then
          match extractTitle properties with
          | Except.error e => Except.error e
          | Except.ok tv =>
            match decodeFields properties tv schema [("id", pageId), ("title", tv)] with
            | Except.error e => Except.error e
            | Except.ok record =>
              match queryEntries schema rest with
              | Except.error e => Except.error e
              | Except.ok (rs, ws) => Except.ok (record :: rs, ws)
        else
          match queryEntries schema rest with
          | Except.error e => Except.error e
          | Except.ok (rs, ws) => Except.ok (rs, Warn.skippedNoProps pageId :: ws)

/-- `DatabaseQuery.query` (crud.py lines 141-218) applied to the response
of the `databases.query` transport call: the whole body runs under
`try/except`, so any raised error yields the empty record list with the
reported failure message. -/
def query (schema : Schema) (response : PyVal) :
    List (List (String × PyVal)) × List Warn :=
  match pyGetD response "results" (PyVal.list []) with
  | Except.error e => ([], [Warn.queryError e])
  | Except.ok resultsVal =>
    match pyIterate resultsVal with
    | Except.error e => ([], [Warn.queryError e])
    | Except.ok entries =>
      match queryEntries schema entries with
      | Except.error e => ([], [Warn.queryError e])
      | Except.ok (rs, ws) => (rs, ws)

/-! ## Lemmas about the pagination drivers -/

theorem idxCursor_length (j : Nat) : (idxCursor j).length = j := by
  show (List.replicate j 'x').length = j
  exact List.length_replicate j 'x'

theorem idxCursor_ne_empty (j : Nat) : idxCursor (j + 1) ≠ "" := by
  intro h
  have h2 := congrArg String.length h
  rw [idxCursor_length] at h2
  simp at h2

theorem cursorFalsy_idx (j : Nat) : cursorFalsy (some (idxCursor (j + 1))) = false := by
  simp only [cursorFalsy, beq_eq_false_iff_ne]
  exact idxCursor_ne_empty j

theorem chainFetch_idx (ps : List (List α)) (i : Nat) :
    chainFetch ps (some (idxCursor i)) = chainPage ps i := by
  show chainPage ps (idxCursor i).length = chainPage ps i
  rw [idxCursor_length]

theorem chain_iterate_go (ps : List (List α)) :
    ∀ k i c, chainFetch ps c = chainPage ps i → ps.length = i + k → 0 < k →
      iterate_paginated_api (chainFetch ps) c k = some ((ps.drop i).flatten) := by
  intro k
  induction k with
  | zero => intro i c _ _ h; exact absurd h (by simp)
  | succ k ih =>
    intro i c hc hlen _
    have hi : i < ps.length := by omega
    rw [iterate_paginated_api, hc]
    simp only [chainPage]
    by_cases hlt : i + 1 < ps.length
    · have hk : 0 < k := by omega
      rw [if_pos hlt]
      simp only [decide_eq_true hlt, Bool.not_true, cursorFalsy_idx i, Bool.false_or]
      rw [ih (i + 1) (some (idxCursor (i + 1))) (chainFetch_idx ps (i + 1)) (by omega) hk]
      rw [List.getD_eq_getElem _ _ hi]
      rw [List.drop_eq_getElem_cons hi, List.flatten_cons]
      simp
    · rw [if_neg hlt]
      simp only [decide_eq_false hlt, Bool.not_false, Bool.true_or]
      rw [List.getD_eq_getElem _ _ hi]
      rw [List.drop_eq_getElem_cons hi, List.drop_eq_nil_of_le (by omega), List.flatten_cons,
        List.flatten_nil, List.append_nil]
      simp

theorem chain_fetches_go (ps : List (List α)) :
    ∀ k i c, chainFetch ps c = chainPage ps i → ps.length = i + (k + 1) →
      iterateFetches (chainFetch ps) c (k + 1) =
        some (c :: (List.range' (i + 1) k).map (fun j => some (idxCursor j))) := by
  intro k
  induction k with
  | zero =>
    intro i c hc hlen
    rw [iterateFetches, hc]
    simp only [chainPage]
    have hlt : ¬ i + 1 < ps.length := by omega
    rw [if_neg hlt]
    simp only [decide_eq_false hlt, Bool.not_false, Bool.true_or]
    simp
  | succ k ih =>
    intro i c hc hlen
    rw [iterateFetches, hc]
    simp only [chainPage]
    have hlt : i + 1 < ps.length := by omega
    rw [if_pos hlt]
    simp only [decide_eq_true hlt, Bool.not_true, cursorFalsy_idx i, Bool.false_or]
    rw [ih (i + 1) (some (idxCursor (i + 1))) (chainFetch_idx ps (i + 1)) (by omega)]
    rw [List.range'_succ, List.map_cons]
    simp

theorem cursorFalsy_eq_isNone {c : Option String} (h : c ≠ some "") :
    cursorFalsy c = c.isNone := by
  cases c with
  | none => rfl
  | some s =>
    simp only [cursorFalsy, Option.isNone_some, beq_eq_false_iff_ne]
    intro hs
    exact h (by rw [hs])

theorem iterate_eq_async_items (f : Option String → PageResponse α)
    (hf : ∀ c, (f c).next_cursor ≠ some "") :
    ∀ fuel c, iterate_paginated_api f c fuel = async_iterate_paginated_api f c fuel := by
  intro fuel
  induction fuel with
  | zero => intro c; rfl
  | succ n ih =>
    intro c
    rw [iterate_paginated_api, async_iterate_paginated_api,
      cursorFalsy_eq_isNone (hf c), ih (f c).next_cursor]

theorem iterateFetches_eq_asyncFetches (f : Option String → PageResponse α)
    (hf : ∀ c, (f c).next_cursor ≠ some "") :
    ∀ fuel c, iterateFetches f c fuel = asyncFetches f c fuel := by
  intro fuel
  induction fuel with
  | zero => intro c; rfl
  | succ n ih =>
    intro c
    rw [iterateFetches, asyncFetches, cursorFalsy_eq_isNone (hf c), ih (f c).next_cursor]

theorem chainFetch_no_empty_cursor (ps : List (List α)) :
    ∀ c, (chainFetch ps c).next_cursor ≠ some "" := by
  intro c
  have h : ∀ i, (chainPage ps i).next_cursor ≠ some "" := by
    intro i
    simp only [chainPage]
    by_cases hlt : i + 1 < ps.length
    · rw [if_pos hlt]
      intro h
      exact idxCursor_ne_empty i (Option.some.inj h)
    · rw [if_neg hlt]
      exact fun h => Option.noConfusion h
  cases c with
  | none => exact h 0
  | some s => exact h s.length

/-- C1: for every chained sequence of pages (page `i` reports
`has_more = true` with a cursor for page `i+1` while pages remain, the
last page reports `has_more = false`), the blocking driver
(`iterate_paginated_api` / `collect_paginated_api`) and the lazy/async
driver emit every item of every page exactly once — the flattening of the
pages in page order and within-page order — and terminate after exactly
one fetch per page; the fetched cursor trace lists each page's cursor
once, with no duplicates, so no page is fetched twice. -/
theorem pagination_chain_emits_all_items_once (α : Type) (ps : List (List α))
    (hps : 0 < ps.length) :
    iterate_paginated_api (chainFetch ps) Option.none ps.length = some ps.flatten ∧
    collect_paginated_api (chainFetch ps) Option.none ps.length = some ps.flatten ∧
    async_iterate_paginated_api (chainFetch ps) Option.none ps.length = some ps.flatten ∧
    async_collect_paginated_api (chainFetch ps) Option.none ps.length = some ps.flatten ∧
    iterateFetches (chainFetch ps) Option.none ps.length =
      some (Option.none :: (List.range' 1 (ps.length - 1)).map (fun j => some (idxCursor j))) ∧
    asyncFetches (chainFetch ps) Option.none ps.length =
      some (Option.none :: (List.range' 1 (ps.length - 1)).map (fun j => some (idxCursor j))) ∧
    (Option.none :: (List.range' 1 (ps.length - 1)).map (fun j => some (idxCursor j))).Nodup := by
  have hN : ps.length = (ps.length - 1) + 1 := by omega
  have hitems : iterate_paginated_api (chainFetch ps) Option.none ps.length = some ps.flatten := by
    have h := chain_iterate_go ps ps.length 0 Option.none rfl (by omega) hps
    rwa [List.drop_zero] at h
  have htrace : iterateFetches (chainFetch ps) Option.none ps.length =
      some (Option.none :: (List.range' 1 (ps.length - 1)).map (fun j => some (idxCursor j))) := by
    have h := chain_fetches_go ps (ps.length - 1) 0 Option.none rfl (by omega)
    rwa [← hN] at h
  have hasy : async_iterate_paginated_api (chainFetch ps) Option.none ps.length = some ps.flatten := by
    rw [← iterate_eq_async_items (chainFetch ps) (chainFetch_no_empty_cursor ps)]
    exact hitems
  have hasytrace : asyncFetches (chainFetch ps) Option.none ps.length =
      some (Option.none :: (List.range' 1 (ps.length - 1)).map (fun j => some (idxCursor j))) := by
    rw [← iterateFetches_eq_asyncFetches (chainFetch ps) (chainFetch_no_empty_cursor ps)]
    exact htrace
  have hnodup : (Option.none ::
      (List.range' 1 (ps.length - 1)).map (fun j => some (idxCursor j))).Nodup := by
    rw [List.nodup_cons]
    constructor
    · simp [List.mem_map]
    · apply List.Nodup.map
      · intro a b hab
        have := Option.some.inj hab
        have h2 := congrArg String.length this
        rwa [idxCursor_length, idxCursor_length] at h2
      · exact List.nodup_range' 1 (ps.length - 1)
  exact ⟨hitems, hitems, hasy, hasy, htrace, hasytrace, hnodup⟩

/-- Witness for C1 at the concrete three-page sequence
`[[1, 2], [3], [4, 5]]`. -/
theorem pagination_chain_emits_all_items_once_witness :
    (0 < ([[1, 2], [3], [4, 5]] : List (List Nat)).length) ∧
    (iterate_paginated_api (chainFetch [[1, 2], [3], [4, 5]]) Option.none
        ([[1, 2], [3], [4, 5]] : List (List Nat)).length =
      some ([[1, 2], [3], [4, 5]] : List (List Nat)).flatten ∧
    collect_paginated_api (chainFetch [[1, 2], [3], [4, 5]]) Option.none
        ([[1, 2], [3], [4, 5]] : List (List Nat)).length =
      some ([[1, 2], [3], [4, 5]] : List (List Nat)).flatten ∧
    async_iterate_paginated_api (chainFetch [[1, 2], [3], [4, 5]]) Option.none
        ([[1, 2], [3], [4, 5]] : List (List Nat)).length =
      some ([[1, 2], [3], [4, 5]] : List (List Nat)).flatten ∧
    async_collect_paginated_api (chainFetch [[1, 2], [3], [4, 5]]) Option.none
        ([[1, 2], [3], [4, 5]] : List (List Nat)).length =
      some ([[1, 2], [3], [4, 5]] : List (List Nat)).flatten ∧
    iterateFetches (chainFetch [[1, 2], [3], [4, 5]]) Option.none
        ([[1, 2], [3], [4, 5]] : List (List Nat)).length =
      some (Option.none :: (List.range' 1 (([[1, 2], [3], [4, 5]] : List (List Nat)).length - 1)).map
        (fun j => some (idxCursor j))) ∧
    asyncFetches (chainFetch [[1, 2], [3], [4, 5]]) Option.none
        ([[1, 2], [3], [4, 5]] : List (List Nat)).length =
      some (Option.none :: (List.range' 1 (([[1, 2], [3], [4, 5]] : List (List Nat)).length - 1)).map
        (fun j => some (idxCursor j))) ∧
    (Option.none :: (List.range' 1 (([[1, 2], [3], [4, 5]] : List (List Nat)).length - 1)).map
      (fun j => some (idxCursor j))).Nodup) :=
  ⟨by decide, pagination_chain_emits_all_items_once Nat [[1, 2], [3], [4, 5]] (by decide)⟩

/-- C2: whenever a fetched page reports `has_more = false` or carries no
`next_cursor`, both pagination drivers terminate right after emitting that
page's results — returning success (`some`) — and the fetch trace is the
single cursor of that page: no further fetch is ever issued.  The case
`has_more = true` with `next_cursor = null` is covered by the second
disjunct. -/
theorem pagination_stops_after_final_page (α : Type)
    (f : Option String → PageResponse α) (c : Option String) (fuel : Nat)
    (h : (f c).has_more = false ∨ (f c).next_cursor = Option.none) :
    iterate_paginated_api f c (fuel + 1) = some (f c).results ∧
    async_iterate_paginated_api f c (fuel + 1) = some (f c).results ∧
    iterateFetches f c (fuel + 1) = some [c] ∧
    asyncFetches f c (fuel + 1) = some [c] := by
  have hsync : ((!(f c).has_more) || cursorFalsy (f c).next_cursor) = true := by
    rcases h with h | h
    · rw [h]; rfl
    · rw [h]; simp [cursorFalsy]
  have hasync : ((!(f c).has_more) || (f c).next_cursor.isNone) = true := by
    rcases h with h | h
    · rw [h]; rfl
    · rw [h]; simp
  refine ⟨?_, ?_, ?_, ?_⟩
  · rw [iterate_paginated_api]; simp only [hsync, if_true]
  · rw [async_iterate_paginated_api]; simp only [hasync, if_true]
  · rw [iterateFetches]; simp only [hsync, if_true]
  · rw [asyncFetches]; simp only [hasync, if_true]

/-- Witness for C2 at a page that reports `has_more = true` together with
`next_cursor = null`. -/
theorem pagination_stops_after_final_page_witness :
    (((fun _ => ⟨[7], true, Option.none⟩ : Option String → PageResponse Nat)
        Option.none).has_more = false ∨
      ((fun _ => ⟨[7], true, Option.none⟩ : Option String → PageResponse Nat)
        Option.none).next_cursor = Option.none) ∧
    (iterate_paginated_api (fun _ => ⟨[7], true, Option.none⟩ : Option String → PageResponse Nat)
        Option.none (0 + 1) =
      some ((fun (_ : Option String) => (⟨[7], true, Option.none⟩ : PageResponse Nat))
        Option.none).results ∧
    async_iterate_paginated_api
        (fun _ => ⟨[7], true, Option.none⟩ : Option String → PageResponse Nat)
        Option.none (0 + 1) =
      some ((fun (_ : Option String) => (⟨[7], true, Option.none⟩ : PageResponse Nat))
        Option.none).results ∧
    iterateFetches (fun _ => ⟨[7], true, Option.none⟩ : Option String → PageResponse Nat)
        Option.none (0 + 1) = some [Option.none] ∧
    asyncFetches (fun _ => ⟨[7], true, Option.none⟩ : Option String → PageResponse Nat)
        Option.none (0 + 1) = some [Option.none]) :=
  ⟨Or.inr rfl,
    pagination_stops_after_final_page Nat (fun _ => ⟨[7], true, Option.none⟩)
      Option.none 0 (Or.inr rfl)⟩

/-- C3 counterexample: the two drivers do NOT agree for every fetch
function.  On `emptyCursorFetch`, whose first page reports
`has_more = true` with `next_cursor = ""`, the blocking driver treats the
empty-string cursor as falsy and stops after page 0, while the async
driver only tests the cursor against `None` and issues a second fetch:
the emitted sequences differ. -/
theorem sync_async_differ_on_empty_cursor :
    iterate_paginated_api emptyCursorFetch Option.none 2 = some [0] ∧
    async_iterate_paginated_api emptyCursorFetch Option.none 2 = some [0, 1] ∧
    iterate_paginated_api emptyCursorFetch Option.none 2 ≠
      async_iterate_paginated_api emptyCursorFetch Option.none 2 :=
  ⟨by decide, by decide, by decide⟩

/-- C3 (amended): for every fetch function none of whose responses reports
the empty string as `next_cursor`, the blocking driver and the
suspend-capable driver produce the same emitted sequence and the same
fetch trace (hence terminate under exactly the same conditions) from
every start cursor and fuel; they differ exactly on responses that pair
`has_more = true` with an empty-string cursor, where the blocking driver
stops and the async driver fetches again. -/
theorem sync_async_agree_without_empty_cursor (α : Type)
    (f : Option String → PageResponse α)
    (hf : ∀ c, (f c).next_cursor ≠ some "") (c : Option String) (fuel : Nat) :
    iterate_paginated_api f c fuel = async_iterate_paginated_api f c fuel ∧
    iterateFetches f c fuel = asyncFetches f c fuel :=
  ⟨iterate_eq_async_items f hf fuel c, iterateFetches_eq_asyncFetches f hf fuel c⟩

/-- Witness for C3 (amended) at the concrete chained fetch function over
`[[1], [2]]`. -/
theorem sync_async_agree_without_empty_cursor_witness :
    (∀ c, ((chainFetch [[1], [2]] : Option String → PageResponse Nat) c).next_cursor ≠
      some "") ∧
    (iterate_paginated_api (chainFetch [[1], [2]]) Option.none 2 =
      async_iterate_paginated_api (chainFetch [[1], [2]]) Option.none 2 ∧
    iterateFetches (chainFetch [[1], [2]]) Option.none 2 =
      asyncFetches (chainFetch [[1], [2]]) Option.none 2) :=
  ⟨chainFetch_no_empty_cursor [[1], [2]],
    sync_async_agree_without_empty_cursor Nat (chainFetch [[1], [2]])
      (chainFetch_no_empty_cursor [[1], [2]]) Option.none 2⟩

/-! ## Lemmas about dict operations and the encode direction -/

theorem lookup_mem {β : Type} {k : String} {v : β} :
    ∀ {l : List (String × β)}, List.lookup k l = some v → (k, v) ∈ l := by
  intro l
  induction l with
  | nil => intro h; simp [List.lookup] at h
  | cons p rest ih =>
    obtain ⟨k0, v0⟩ := p
    intro h
    by_cases hk : k = k0
    · subst hk
      simp [List.lookup] at h
      subst h
      exact List.mem_cons_self _ _
    · have hb : (k == k0) = false := beq_eq_false_iff_ne.mpr hk
      rw [List.lookup, hb] at h
      exact List.mem_cons_of_mem _ (ih h)

theorem lookup_dictSet_self {β : Type} (d : List (String × β)) (k : String) (v : β) :
    List.lookup k (dictSet d k v) = some v := by
  induction d with
  | nil => simp [dictSet, List.lookup]
  | cons p rest ih =>
    obtain ⟨k0, v0⟩ := p
    rw [dictSet]
    by_cases hk : k0 = k
    · rw [if_pos (by rw [hk]; exact beq_self_eq_true k)]
      simp [List.lookup]
    · rw [if_neg (by rw [beq_eq_false_iff_ne.mpr hk]; exact Bool.false_ne_true)]
      rw [List.lookup, beq_eq_false_iff_ne.mpr (fun h => hk h.symm)]
      exact ih

theorem lookup_dictSet_ne {β : Type} (d : List (String × β)) {k k2 : String} (v : β)
    (h : k2 ≠ k) : List.lookup k2 (dictSet d k v) = List.lookup k2 d := by
  induction d with
  | nil => simp [dictSet, List.lookup, beq_eq_false_iff_ne.mpr h]
  | cons p rest ih =>
    obtain ⟨k0, v0⟩ := p
    rw [dictSet]
    by_cases hk : k0 = k
    · subst hk
      rw [if_pos (beq_self_eq_true k0)]
      rw [List.lookup, List.lookup, beq_eq_false_iff_ne.mpr h]
    · rw [if_neg (by rw [beq_eq_false_iff_ne.mpr hk]; exact Bool.false_ne_true)]
      rw [List.lookup, List.lookup]
      by_cases hk2 : k2 = k0
      · rw [hk2, beq_self_eq_true]
      · rw [beq_eq_false_iff_ne.mpr hk2]
        exact ih

theorem lookup_dictUpdate_not_mem {β : Type} :
    ∀ (upd d : List (String × β)) (k : String), (∀ p ∈ upd, p.1 ≠ k) →
      List.lookup k (dictUpdate d upd) = List.lookup k d := by
  intro upd
  induction upd with
  | nil => intro d k _; rfl
  | cons p rest ih =>
    intro d k h
    obtain ⟨k0, v0⟩ := p
    show List.lookup k (dictUpdate (dictSet d k0 v0) rest) = _
    rw [ih (dictSet d k0 v0) k (fun q hq => h q (List.mem_cons_of_mem _ hq))]
    exact lookup_dictSet_ne d v0
      (fun heq => h (k0, v0) (List.mem_cons_self _ _) heq.symm)

theorem lookup_dictUpdate_mem {β : Type} :
    ∀ (upd d : List (String × β)) (k : String) (v : β),
      (upd.map Prod.fst).Nodup → (k, v) ∈ upd →
      List.lookup k (dictUpdate d upd) = some v := by
  intro upd
  induction upd with
  | nil => intro d k v _ h; exact absurd h (List.not_mem_nil _)
  | cons p rest ih =>
    intro d k v hnod hmem
    obtain ⟨k0, v0⟩ := p
    show List.lookup k (dictUpdate (dictSet d k0 v0) rest) = _
    rw [List.map_cons, List.nodup_cons] at hnod
    rcases List.mem_cons.mp hmem with heq | htl
    · injection heq with hk hv
      subst hk
      subst hv
      rw [lookup_dictUpdate_not_mem rest (dictSet d k v) k
        (by
          intro q hq hq1
          apply hnod.1
          have hm : q.1 ∈ List.map Prod.fst rest := List.mem_map_of_mem Prod.fst hq
          rw [hq1] at hm
          simpa using hm)]
      exact lookup_dictSet_self d k v
    · exact ih (dictSet d k0 v0) k v hnod.2 htl

theorem generate_valid_data_append (schema : Schema) (xs ys : List (String × PyVal)) :
    generate_valid_data schema (xs ++ ys) =
      match generate_valid_data schema xs with
      | Except.error e => Except.error e
      | Except.ok (o1, w1) =>
        match generate_valid_data schema ys with
        | Except.error e => Except.error e
        | Except.ok (o2, w2) => Except.ok (o1 ++ o2, w1 ++ w2) := by
  induction xs with
  | nil =>
    rw [List.nil_append]
    show generate_valid_data schema ys =
      match generate_valid_data schema ys with
      | Except.error e => Except.error e
      | Except.ok (o2, w2) => Except.ok ([] ++ o2, [] ++ w2)
    cases generate_valid_data schema ys with
    | error e => rfl
    | ok p => obtain ⟨o2, w2⟩ := p; simp
  | cons hd tl ih =>
    obtain ⟨n, v⟩ := hd
    rw [List.cons_append, generate_valid_data, generate_valid_data]
    cases encodeField schema n v with
    | error e => rfl
    | ok r =>
      obtain ⟨ent, ws⟩ := r
      rw [ih]
      cases generate_valid_data schema tl with
      | error e => rfl
      | ok p =>
        obtain ⟨o1, w1⟩ := p
        cases generate_valid_data schema ys with
        | error e => rfl
        | ok q =>
          obtain ⟨o2, w2⟩ := q
          simp [List.append_assoc]

theorem generate_valid_data_key_mem (schema : Schema) :
    ∀ (data : List (String × PyVal)) (o : List (String × PyVal)) (ws : List Warn),
      generate_valid_data schema data = Except.ok (o, ws) →
      ∀ p ∈ o, ∃ q ∈ data, q.1 = p.1 := by
  intro data
  induction data with
  | nil =>
    intro o ws h p hp
    rw [generate_valid_data] at h
    injection h with h2
    injection h2 with h3 h4
    rw [← h3] at hp
    exact absurd hp (List.not_mem_nil p)
  | cons hd tl ih =>
    obtain ⟨n, v⟩ := hd
    intro o ws h p hp
    rw [generate_valid_data] at h
    cases hef : encodeField schema n v with
    | error e => rw [hef] at h; exact absurd h (by simp)
    | ok r =>
      obtain ⟨ent, ws1⟩ := r
      rw [hef] at h
      cases hr : generate_valid_data schema tl with
      | error e => rw [hr] at h; exact absurd h (by simp)
      | ok q =>
        obtain ⟨o2, ws2⟩ := q
        rw [hr] at h
        injection h with h2
        injection h2 with h3 h4
        rw [← h3] at hp
        rcases List.mem_append.mp hp with hleft | hright
        · cases ent with
          | none => exact absurd hleft (List.not_mem_nil p)
          | some w =>
            have : p = (n, w) := List.mem_singleton.mp hleft
            exact ⟨(n, v), List.mem_cons_self _ _, by rw [this]⟩
        · obtain ⟨q2, hq2, hq3⟩ := ih o2 ws2 hr p hright
          exact ⟨q2, List.mem_cons_of_mem _ hq2, hq3⟩

theorem generate_valid_data_skip (schema : Schema) (f : String) (v : PyVal) (w : Warn)
    (hstep : encodeField schema f v = Except.ok (Option.none, [w]))
    (d1 d2 : List (String × PyVal)) :
    Except.map Prod.fst (generate_valid_data schema (d1 ++ (f, v) :: d2)) =
      Except.map Prod.fst (generate_valid_data schema (d1 ++ d2)) ∧
    ∀ o ws, generate_valid_data schema (d1 ++ (f, v) :: d2) = Except.ok (o, ws) → w ∈ ws := by
  rw [generate_valid_data_append, generate_valid_data_append]
  rw [generate_valid_data, hstep]
  cases generate_valid_data schema d1 with
  | error e => exact ⟨rfl, by intro o ws h; exact absurd h (by simp)⟩
  | ok p =>
    obtain ⟨o1, w1⟩ := p
    cases generate_valid_data schema d2 with
    | error e => exact ⟨rfl, by intro o ws h; exact absurd h (by simp)⟩
    | ok q =>
      obtain ⟨o2, w2⟩ := q
      constructor
      · simp [Except.map]
      · intro o ws h
        injection h with h2
        injection h2 with h3 h4
        rw [← h4]
        simp

theorem generate_valid_data_error_middle (schema : Schema) (f : String) (v : PyVal)
    (e : PyErr) (d1 d2 : List (String × PyVal)) (o1 : List (String × PyVal)) (w1 : List Warn)
    (hok : generate_valid_data schema d1 = Except.ok (o1, w1))
    (hstep : encodeField schema f v = Except.error e) :
    generate_valid_data schema (d1 ++ (f, v) :: d2) = Except.error e := by
  rw [generate_valid_data_append, hok, generate_valid_data, hstep]

theorem encodeField_select_miss (schema : Schema) (f : String) (v : PyVal) (pd : PropDef)
    (hlk : List.lookup f schema = some pd) (hty : pd.type = "select")
    (hmiss : pd.selectOptions.any (fun o => o == v) = false) :
    encodeField schema f v = Except.ok (Option.none, [Warn.selectNotFound f v]) := by
  rw [encodeField, hlk]
  simp only [hty, hmiss]
  rfl

theorem encodeField_unsupported (schema : Schema) (f : String) (v : PyVal) (pd : PropDef)
    (hlk : List.lookup f schema = some pd) (hty : pd.type ∉ encodeKinds) :
    encodeField schema f v = Except.ok (Option.none, [Warn.unsupportedType pd.type f]) := by
  simp only [encodeKinds, List.mem_cons, List.not_mem_nil, or_false, not_or] at hty
  obtain ⟨h1, h2, h3, h4, h5, h6, h7, h8, h9, h10⟩ := hty
  simp only [encodeField, hlk]
  rw [if_neg (by simp [h1]), if_neg (by simp [h2]), if_neg (by simp [h3]),
    if_neg (by simp [h4]), if_neg (by simp [h5]), if_neg (by simp [h6]),
    if_neg (by simp [h7]), if_neg (by simp [h8]), if_neg (by simp [h9]),
    if_neg (by simp [h10])]

theorem encodeField_number_error (schema : Schema) (f : String) (v : PyVal) (pd : PropDef)
    (e : PyErr) (hlk : List.lookup f schema = some pd) (hty : pd.type = "number")
    (hflt : pyFloat v = Except.error e) :
    encodeField schema f v = Except.error e := by
  rw [encodeField, hlk]
  simp only [hty, hflt]
  rfl

theorem addRowLoop_new_field (schema : Schema) (pt : Option (List (String × String))) :
    ∀ (kwargs props : List (String × PyVal)) (nf : List (String × String)) (ws : List Warn)
      (key : String) (v : PyVal),
      List.lookup key schema = Option.none →
      (∀ m, pt = some m → List.lookup key m = Option.none) →
      (key, v) ∈ kwargs →
      addRowLoop schema pt kwargs = Except.ok (props, nf, ws) →
      (key, "rich_text") ∈ nf ∧
      (key, PyVal.dict [("rich_text", PyVal.list [PyVal.dict
        [("text", PyVal.dict [("content", PyVal.str (pyStr v))])]])]) ∈ props := by
  intro kwargs
  induction kwargs with
  | nil => intro props nf ws key v _ _ hmem _; exact absurd hmem (List.not_mem_nil _)
  | cons hd tl ih =>
    obtain ⟨k0, v0⟩ := hd
    intro props nf ws key v hsch hpt hmem hok
    rcases List.mem_cons.mp hmem with heq | htl
    · injection heq with hk hv
      subst hk
      subst hv
      have hfmt : _format_property "rich_text" v = Except.ok (PyVal.dict
          [("rich_text", PyVal.list [PyVal.dict
            [("text", PyVal.dict [("content", PyVal.str (pyStr v))])]])]) := rfl
      cases pt with
      | none =>
        simp only [addRowLoop, hsch] at hok
        rw [hfmt] at hok
        cases hrec : addRowLoop schema Option.none tl with
        | error e => rw [hrec] at hok; exact absurd hok (by simp)
        | ok r =>
          obtain ⟨props2, nf2, ws2⟩ := r
          rw [hrec] at hok
          simp only [Except.ok.injEq, Prod.mk.injEq] at hok
          obtain ⟨h3, h4, h5⟩ := hok
          rw [← h3, ← h4]
          exact ⟨List.mem_cons_self _ _, List.mem_cons_self _ _⟩
      | some m =>
        have hm : List.lookup key m = Option.none := hpt m rfl
        simp only [addRowLoop, hsch, hm, Option.getD_none] at hok
        rw [hfmt] at hok
        cases hrec : addRowLoop schema (some m) tl with
        | error e => rw [hrec] at hok; exact absurd hok (by simp)
        | ok r =>
          obtain ⟨props2, nf2, ws2⟩ := r
          rw [hrec] at hok
          simp only [Except.ok.injEq, Prod.mk.injEq] at hok
          obtain ⟨h3, h4, h5⟩ := hok
          rw [← h3, ← h4]
          exact ⟨List.mem_cons_self _ _, List.mem_cons_self _ _⟩
    · cases hlk : List.lookup k0 schema with
      | some d =>
        simp only [addRowLoop, hlk] at hok
        cases hfp : _format_property d.type v0 with
        | error e => rw [hfp] at hok; exact absurd hok (by simp)
        | ok w =>
          rw [hfp] at hok
          cases hrec : addRowLoop schema pt tl with
          | error e => rw [hrec] at hok; exact absurd hok (by simp)
          | ok r =>
            obtain ⟨props2, nf2, ws2⟩ := r
            rw [hrec] at hok
            simp only [Except.ok.injEq, Prod.mk.injEq] at hok
            obtain ⟨h3, h4, h5⟩ := hok
            obtain ⟨hm1, hm2⟩ := ih props2 nf2 ws2 key v hsch hpt htl hrec
            rw [← h3, ← h4]
            exact ⟨hm1, List.mem_cons_of_mem _ hm2⟩
      | none =>
        simp only [addRowLoop, hlk] at hok
        generalize hft0 : (match pt with
          | some m => (List.lookup k0 m).getD "rich_text"
          | Option.none => "rich_text") = ft0 at hok
        cases hfp : _format_property ft0 v0 with
        | error e => rw [hfp] at hok; exact absurd hok (by simp)
        | ok w =>
          rw [hfp] at hok
          cases hrec : addRowLoop schema pt tl with
          | error e => rw [hrec] at hok; exact absurd hok (by simp)
          | ok r =>
            obtain ⟨props2, nf2, ws2⟩ := r
            rw [hrec] at hok
            simp only [Except.ok.injEq, Prod.mk.injEq] at hok
            obtain ⟨h3, h4, h5⟩ := hok
            obtain ⟨hm1, hm2⟩ := ih props2 nf2 ws2 key v hsch hpt htl hrec
            rw [← h3, ← h4]
            exact ⟨List.mem_cons_of_mem _ hm1, List.mem_cons_of_mem _ hm2⟩

theorem add_row_loop_projection (schema : Schema) (pt : Option (List (String × String)))
    (kwargs : List (String × PyVal)) (b : Bool) (eff : AddRowEffects)
    (hok : add_row schema pt kwargs b = Except.ok eff) :
    ∃ ws, addRowLoop schema pt kwargs = Except.ok (eff.properties, eff.new_fields, ws) := by
  rw [add_row] at hok
  cases hrec : addRowLoop schema pt kwargs with
  | error e => rw [hrec] at hok; exact absurd hok (by simp)
  | ok r =>
    obtain ⟨props, nf, ws⟩ := r
    rw [hrec] at hok
    by_cases he : nf.isEmpty
    · simp only [he, if_true] at hok
      have heq := Except.ok.inj hok
      subst heq
      exact ⟨ws, rfl⟩
    · simp only [he, if_false, Bool.false_eq_true] at hok
      have heq := Except.ok.inj hok
      subst heq
      exact ⟨ws, rfl⟩

theorem add_row_patch_independent (schema : Schema) (pt : Option (List (String × String)))
    (kwargs : List (String × PyVal)) :
    Except.map (fun eff => (eff.properties, eff.new_fields)) (add_row schema pt kwargs true) =
      Except.map (fun eff => (eff.properties, eff.new_fields)) (add_row schema pt kwargs false) := by
  rw [add_row, add_row]
  cases addRowLoop schema pt kwargs with
  | error e => rfl
  | ok r =>
    obtain ⟨props, nf, ws⟩ := r
    by_cases he : nf.isEmpty
    · simp [he]
    · simp [he, _update_schema, Except.map]

/-! ## Lemmas about the decode direction -/

theorem except_map_some_ne_ok_none (x : Except PyErr PyVal) :
    Except.map some x ≠ Except.ok (Option.none : Option PyVal) := by
  cases x with
  | error e => simp [Except.map]
  | ok v => simp [Except.map]

set_option maxHeartbeats 1600000 in
theorem decodeField_ok_none_unsupported {t : String} {value tv : PyVal}
    (h : decodeField t value tv = Except.ok Option.none) : t ∉ decodeKinds := by
  rw [decodeField] at h
  split_ifs at h with h1 h2 h3 h4 h5 h6 h7 h8 h9 h10 h11
  · exact absurd h (except_map_some_ne_ok_none _)
  · exact absurd h (except_map_some_ne_ok_none _)
  · exact absurd h (except_map_some_ne_ok_none _)
  · exact absurd h (except_map_some_ne_ok_none _)
  · exact absurd h (except_map_some_ne_ok_none _)
  · exact absurd h (except_map_some_ne_ok_none _)
  · exact absurd h (except_map_some_ne_ok_none _)
  · exact absurd h (except_map_some_ne_ok_none _)
  · exact absurd h (except_map_some_ne_ok_none _)
  · exact absurd h (except_map_some_ne_ok_none _)
  · exact absurd h (except_map_some_ne_ok_none _)
  · simp only [beq_iff_eq] at h1 h2 h3 h4 h5 h6 h7 h8 h9 h10 h11
    simp [decodeKinds, h1, h2, h3, h4, h5, h6, h7, h8, h9, h10, h11]

theorem decodeFields_keys (properties tv : PyVal) :
    ∀ (fields : Schema) (record r : List (String × PyVal)),
      decodeFields properties tv fields record = Except.ok r →
      (∀ k, (List.lookup k record).isSome = true → (List.lookup k r).isSome = true) ∧
      (∀ fname d, (fname, d) ∈ fields → d.type ∈ decodeKinds →
        (List.lookup fname r).isSome = true) := by
  intro fields
  induction fields with
  | nil =>
    intro record r h
    rw [decodeFields] at h
    have heq := Except.ok.inj h
    subst heq
    exact ⟨fun k hk => hk, fun fname d hmem _ => absurd hmem (List.not_mem_nil _)⟩
  | cons fd rest ih =>
    obtain ⟨fname0, d0⟩ := fd
    intro record r h
    rw [decodeFields] at h
    cases hv : pyGetD properties fname0 (PyVal.dict []) with
    | error e => rw [hv] at h; simp at h
    | ok value =>
      rw [hv] at h
      simp only [] at h
      cases hdf : decodeField d0.type value tv with
      | error e => rw [hdf] at h; simp at h
      | ok o =>
        rw [hdf] at h
        cases o with
        | none =>
          simp only [] at h
          obtain ⟨pres, keys⟩ := ih record r h
          refine ⟨pres, ?_⟩
          intro fname d hmem hdk
          rcases List.mem_cons.mp hmem with heq | htl
          · injection heq with hfn hd
            subst hfn
            subst hd
            exact absurd hdk (decodeField_ok_none_unsupported hdf)
          · exact keys fname d htl hdk
        | some dv =>
          simp only [] at h
          obtain ⟨pres, keys⟩ := ih (dictSet record fname0 dv) r h
          constructor
          · intro k hk
            apply pres
            by_cases hkf : k = fname0
            · subst hkf
              rw [lookup_dictSet_self]
              rfl
            · rw [lookup_dictSet_ne record dv hkf]
              exact hk
          · intro fname d hmem hdk
            rcases List.mem_cons.mp hmem with heq | htl
            · injection heq with hfn hd
              subst hfn
              apply pres
              rw [lookup_dictSet_self]
              rfl
            · exact keys fname d htl hdk

theorem queryEntries_records (schema : Schema) :
    ∀ (entries : List PyVal) (rs : List (List (String × PyVal))) (ws : List Warn),
      queryEntries schema entries = Except.ok (rs, ws) →
      ∀ r ∈ rs, ∃ properties tv pid,
        decodeFields properties tv schema [("id", pid), ("title", tv)] = Except.ok r := by
  intro entries
  induction entries with
  | nil =>
    intro rs ws h r hr
    rw [queryEntries] at h
    have heq := Except.ok.inj h
    injection heq with h1 h2
    rw [← h1] at hr
    exact absurd hr (List.not_mem_nil _)
  | cons entry rest ih =>
    intro rs ws h r hr
    rw [queryEntries] at h
    cases hid : pyGetD entry "id" (PyVal.str "") with
    | error e => rw [hid] at h; simp at h
    | ok pid =>
      rw [hid] at h
      simp only [] at h
      cases hpv : pyGetD entry "properties" (PyVal.dict []) with
      | error e => rw [hpv] at h; simp at h
      | ok pv =>
        rw [hpv] at h
        simp only [] at h
        by_cases ht : pyTruthy pv
        · rw [if_pos ht] at h
          cases htv : extractTitle pv with
          | error e => rw [htv] at h; simp at h
          | ok tv =>
            rw [htv] at h
            simp only [] at h
            cases hdf : decodeFields pv tv schema [("id", pid), ("title", tv)] with
            | error e => rw [hdf] at h; simp at h
            | ok record =>
              rw [hdf] at h
              simp only [] at h
              cases hrest : queryEntries schema rest with
              | error e => rw [hrest] at h; simp at h
              | ok q =>
                obtain ⟨rs2, ws2⟩ := q
                rw [hrest] at h
                simp only [] at h
                have heq := Except.ok.inj h
                injection heq with h1 h2
                rw [← h1] at hr
                rcases List.mem_cons.mp hr with hre | hrt
                · subst hre
                  exact ⟨pv, tv, pid, hdf⟩
                · exact ih rs2 ws2 hrest r hrt
        · rw [if_neg ht] at h
          cases hrest : queryEntries schema rest with
          | error e => rw [hrest] at h; simp at h
          | ok q =>
            obtain ⟨rs2, ws2⟩ := q
            rw [hrest] at h
            simp only [] at h
            have heq := Except.ok.inj h
            injection heq with h1 h2
            rw [← h1] at hr
            exact ih rs2 ws2 hrest r hr

theorem query_records_origin (schema : Schema) (response : PyVal) :
    ∀ r ∈ (query schema response).1, ∃ properties tv pid,
      decodeFields properties tv schema [("id", pid), ("title", tv)] = Except.ok r := by
  intro r hr
  rw [query] at hr
  cases hres : pyGetD response "results" (PyVal.list []) with
  | error e => rw [hres] at hr; simp at hr
  | ok resultsVal =>
    rw [hres] at hr
    simp only [] at hr
    cases hit : pyIterate resultsVal with
    | error e => rw [hit] at hr; simp at hr
    | ok entries =>
      rw [hit] at hr
      simp only [] at hr
      cases hq : queryEntries schema entries with
      | error e => rw [hq] at hr; simp at hr
      | ok p =>
        obtain ⟨rs, ws⟩ := p
        rw [hq] at hr
        simp only [] at hr
        exact queryEntries_records schema entries rs ws hq r hr

theorem queryEntries_length_le (schema : Schema) :
    ∀ (entries : List PyVal) (rs : List (List (String × PyVal))) (ws : List Warn),
      queryEntries schema entries = Except.ok (rs, ws) → rs.length ≤ entries.length := by
  intro entries
  induction entries with
  | nil =>
    intro rs ws h
    rw [queryEntries] at h
    have heq := Except.ok.inj h
    injection heq with h1 h2
    rw [← h1]
    exact Nat.le_refl 0
  | cons entry rest ih =>
    intro rs ws h
    rw [queryEntries] at h
    cases hid : pyGetD entry "id" (PyVal.str "") with
    | error e => rw [hid] at h; simp at h
    | ok pid =>
      rw [hid] at h
      simp only [] at h
      cases hpv : pyGetD entry "properties" (PyVal.dict []) with
      | error e => rw [hpv] at h; simp at h
      | ok pv =>
        rw [hpv] at h
        simp only [] at h
        by_cases ht : pyTruthy pv
        · rw [if_pos ht] at h
          cases htv : extractTitle pv with
          | error e => rw [htv] at h; simp at h
          | ok tv =>
            rw [htv] at h
            simp only [] at h
            cases hdf : decodeFields pv tv schema [("id", pid), ("title", tv)] with
            | error e => rw [hdf] at h; simp at h
            | ok record =>
              rw [hdf] at h
              simp only [] at h
              cases hrest : queryEntries schema rest with
              | error e => rw [hrest] at h; simp at h
              | ok q =>
                obtain ⟨rs2, ws2⟩ := q
                rw [hrest] at h
                simp only [] at h
                have heq := Except.ok.inj h
                injection heq with h1 h2
                rw [← h1]
                simpa using Nat.succ_le_succ (ih rs2 ws2 hrest)
        · rw [if_neg ht] at h
          cases hrest : queryEntries schema rest with
          | error e => rw [hrest] at h; simp at h
          | ok q =>
            obtain ⟨rs2, ws2⟩ := q
            rw [hrest] at h
            simp only [] at h
            have heq := Except.ok.inj h
            injection heq with h1 h2
            rw [← h1]
            exact Nat.le_succ_of_le (ih rs2 ws2 hrest)

/-! ## Claim theorems for the codec -/

theorem format_property_unknown (t : String) (w : PyVal) (ht : t ∉ encodeKinds) :
    _format_property t w = Except.ok (PyVal.dict [("rich_text", PyVal.list [PyVal.dict
      [("text", PyVal.dict [("content", PyVal.str (pyStr w))])]])]) := by
  simp only [encodeKinds, List.mem_cons, List.not_mem_nil, or_false, not_or] at ht
  obtain ⟨h1, h2, h3, h4, h5, h6, h7, h8, h9, h10⟩ := ht
  simp only [_format_property, beq_iff_eq, h1, h2, h3, h4, h5, h6, h7, h8, h9, h10,
    if_false]

/-- C4 counterexample: a batch containing a number-kind field whose value
is not numeric-coercible (`float(None)` raises) makes
`generate_valid_data` raise, producing NO output — in particular the
well-formed rich_text field `"b"` later in the batch is not encoded, so
the conversion failure does abort the encode of the remaining fields. -/
theorem number_conversion_aborts_batch_cex :
    generate_valid_data
        [("a", PropDef.mk "number" [] []), ("b", PropDef.mk "rich_text" [] [])]
        [("a", PyVal.none), ("b", PyVal.str "hi")] =
      Except.error PyErr.typeError ∧
    ∀ o w, generate_valid_data
        [("a", PropDef.mk "number" [] []), ("b", PropDef.mk "rich_text" [] [])]
        [("a", PyVal.none), ("b", PyVal.str "hi")] ≠ Except.ok (o, w) := by
  refine ⟨rfl, ?_⟩
  intro o w h
  exact Except.noConfusion h

/-- C4 (amended): when a number-kind field's value fails `float()`
coercion, `generate_valid_data` raises that error, aborting the entire
batch encode: provided the fields before it encode without raising, the
whole call returns the error and no field of the batch — earlier or
later — contributes any output. -/
theorem number_conversion_aborts_batch (schema : Schema) (f : String) (v : PyVal)
    (pd : PropDef) (e : PyErr) (d1 d2 : List (String × PyVal))
    (o1 : List (String × PyVal)) (w1 : List Warn)
    (hlk : List.lookup f schema = some pd) (hty : pd.type = "number")
    (hflt : pyFloat v = Except.error e)
    (hd1 : generate_valid_data schema d1 = Except.ok (o1, w1)) :
    generate_valid_data schema (d1 ++ (f, v) :: d2) = Except.error e :=
  generate_valid_data_error_middle schema f v e d1 d2 o1 w1 hd1
    (encodeField_number_error schema f v pd e hlk hty hflt)

/-- Witness for C4 (amended) at the concrete schema
`{b: rich_text, a: number}` and batch `{b: "hi", a: None}`. -/
theorem number_conversion_aborts_batch_witness :
    (List.lookup "a" [("b", PropDef.mk "rich_text" [] []), ("a", PropDef.mk "number" [] [])] =
        some (PropDef.mk "number" [] []) ∧
      pyFloat PyVal.none = Except.error PyErr.typeError ∧
      generate_valid_data [("b", PropDef.mk "rich_text" [] []), ("a", PropDef.mk "number" [] [])]
          [("b", PyVal.str "hi")] =
        Except.ok ([("b", PyVal.dict [("rich_text", PyVal.list [PyVal.dict
          [("text", PyVal.dict [("content", PyVal.str "hi")])]])])], [])) ∧
    generate_valid_data [("b", PropDef.mk "rich_text" [] []), ("a", PropDef.mk "number" [] [])]
        ([("b", PyVal.str "hi")] ++ ("a", PyVal.none) :: []) =
      Except.error PyErr.typeError :=
  ⟨⟨rfl, rfl, rfl⟩,
    number_conversion_aborts_batch
      [("b", PropDef.mk "rich_text" [] []), ("a", PropDef.mk "number" [] [])]
      "a" PyVal.none (PropDef.mk "number" [] []) PyErr.typeError
      [("b", PyVal.str "hi")] []
      [("b", PyVal.dict [("rich_text", PyVal.list [PyVal.dict
        [("text", PyVal.dict [("content", PyVal.str "hi")])]])])] []
      rfl rfl rfl rfl⟩

/-- C5 counterexample: the encode direction does NOT always skip a field
whose schema-declared kind is unsupported.  In `add_row`, a field whose
cached schema type is the unsupported `"status"` is passed to
`_format_property`, whose final `else` silently encodes it as rich_text —
the field is present in the outgoing properties, coerced, with no
warning. -/
theorem unsupported_kind_coerced_to_rich_text_cex :
    add_row [("Weird", PropDef.mk "status" [] [])] Option.none
        [("Weird", PyVal.str "x")] false =
      Except.ok ⟨[("Weird", PyVal.dict [("rich_text", PyVal.list [PyVal.dict
        [("text", PyVal.dict [("content", PyVal.str "x")])]])])], [],
        [("Weird", PropDef.mk "status" [] [])], []⟩ := rfl

/-- C5 (amended): the two encode paths treat an unsupported schema kind
differently.  `generate_valid_data` skips the field — the batch output is
exactly that of the batch without the field, the field's name is absent
from the output, and an unsupported-type warning is reported; but
`_format_property` (the `add_row`/`update_row` path) encodes any
unrecognised kind string as rich_text without a warning. -/
theorem unsupported_kind_policy (schema : Schema) (f : String) (v : PyVal)
    (pd : PropDef) (d1 d2 : List (String × PyVal)) (t : String) (w : PyVal)
    (hlk : List.lookup f schema = some pd) (hty : pd.type ∉ encodeKinds)
    (hothers : ∀ p ∈ d1 ++ d2, p.1 ≠ f) (ht : t ∉ encodeKinds) :
    Except.map Prod.fst (generate_valid_data schema (d1 ++ (f, v) :: d2)) =
      Except.map Prod.fst (generate_valid_data schema (d1 ++ d2)) ∧
    (∀ o ws, generate_valid_data schema (d1 ++ (f, v) :: d2) = Except.ok (o, ws) →
      List.lookup f o = Option.none ∧ Warn.unsupportedType pd.type f ∈ ws) ∧
    _format_property t w = Except.ok (PyVal.dict [("rich_text", PyVal.list [PyVal.dict
      [("text", PyVal.dict [("content", PyVal.str (pyStr w))])]])]) := by
  have hstep := encodeField_unsupported schema f v pd hlk hty
  obtain ⟨houts, hwarn⟩ :=
    generate_valid_data_skip schema f v (Warn.unsupportedType pd.type f) hstep d1 d2
  refine ⟨houts, ?_, format_property_unknown t w ht⟩
  intro o ws h
  refine ⟨?_, hwarn o ws h⟩
  cases hlo : List.lookup f o with
  | none => rfl
  | some w2 =>
    exfalso
    have hmem := lookup_mem hlo
    rw [h] at houts
    cases h2 : generate_valid_data schema (d1 ++ d2) with
    | error e => rw [h2] at houts; simp [Except.map] at houts
    | ok q =>
      obtain ⟨o2, ws2⟩ := q
      rw [h2] at houts
      simp only [Except.map, Except.ok.injEq] at houts
      obtain ⟨q2, hq2, hq3⟩ := generate_valid_data_key_mem schema (d1 ++ d2) o2 ws2 h2
        (f, w2) (houts ▸ hmem)
      exact hothers q2 hq2 hq3

/-- Witness for C5 (amended) at the concrete schema
`{Weird: status, b: rich_text}` with batch `{Weird: "x", b: "y"}`. -/
theorem unsupported_kind_policy_witness :
    (List.lookup "Weird" [("Weird", PropDef.mk "status" [] []),
        ("b", PropDef.mk "rich_text" [] [])] = some (PropDef.mk "status" [] []) ∧
      "status" ∉ encodeKinds ∧
      (∀ p ∈ ([("b", PyVal.str "y")] : List (String × PyVal)), p.1 ≠ "Weird")) ∧
    (Except.map Prod.fst (generate_valid_data
        [("Weird", PropDef.mk "status" [] []), ("b", PropDef.mk "rich_text" [] [])]
        ([] ++ ("Weird", PyVal.str "x") :: [("b", PyVal.str "y")])) =
      Except.map Prod.fst (generate_valid_data
        [("Weird", PropDef.mk "status" [] []), ("b", PropDef.mk "rich_text" [] [])]
        ([] ++ [("b", PyVal.str "y")])) ∧
    (∀ o ws, generate_valid_data
        [("Weird", PropDef.mk "status" [] []), ("b", PropDef.mk "rich_text" [] [])]
        ([] ++ ("Weird", PyVal.str "x") :: [("b", PyVal.str "y")]) = Except.ok (o, ws) →
      List.lookup "Weird" o = Option.none ∧ Warn.unsupportedType "status" "Weird" ∈ ws) ∧
    _format_property "status" (PyVal.str "x") =
      Except.ok (PyVal.dict [("rich_text", PyVal.list [PyVal.dict
        [("text", PyVal.dict [("content", PyVal.str (pyStr (PyVal.str "x")))])]])])) :=
  ⟨⟨rfl, by decide, by intro p hp; cases List.mem_singleton.mp hp; decide⟩,
    unsupported_kind_policy
      [("Weird", PropDef.mk "status" [] []), ("b", PropDef.mk "rich_text" [] [])]
      "Weird" (PyVal.str "x") (PropDef.mk "status" [] [])
      [] [("b", PyVal.str "y")] "status" (PyVal.str "x")
      rfl (by decide)
      (by intro p hp; cases List.mem_singleton.mp hp; decide) (by decide)⟩

/-- C6: an `add_row`/`update_row` input field whose name is not in the
cached schema and has no declared type is recorded in the schema-patch
request with kind rich_text AND encoded into the outgoing properties as
rich_text; moreover the encoded properties and the patch request are
identical whether the schema-patch call succeeds or fails. -/
theorem new_field_defaults_to_rich_text (schema : Schema)
    (pt : Option (List (String × String))) (kwargs : List (String × PyVal))
    (key : String) (v : PyVal) (b : Bool) (eff : AddRowEffects)
    (hsch : List.lookup key schema = Option.none)
    (hpt : ∀ m, pt = some m → List.lookup key m = Option.none)
    (hmem : (key, v) ∈ kwargs)
    (hok : add_row schema pt kwargs b = Except.ok eff) :
    (key, "rich_text") ∈ eff.new_fields ∧
    (key, PyVal.dict [("rich_text", PyVal.list [PyVal.dict
      [("text", PyVal.dict [("content", PyVal.str (pyStr v))])]])]) ∈ eff.properties ∧
    Except.map (fun e2 => (e2.properties, e2.new_fields)) (add_row schema pt kwargs true) =
      Except.map (fun e2 => (e2.properties, e2.new_fields)) (add_row schema pt kwargs false) := by
  obtain ⟨ws, hloop⟩ := add_row_loop_projection schema pt kwargs b eff hok
  obtain ⟨h1, h2⟩ := addRowLoop_new_field schema pt kwargs eff.properties eff.new_fields ws
    key v hsch hpt hmem hloop
  exact ⟨h1, h2, add_row_patch_independent schema pt kwargs⟩

/-- Witness for C6: adding field `"k"` with value `"v"` against an empty
schema and absent declared-type map, patch succeeding. -/
theorem new_field_defaults_to_rich_text_witness :
    (List.lookup "k" ([] : Schema) = Option.none ∧
      (("k", PyVal.str "v") : String × PyVal) ∈ [(("k" : String), PyVal.str "v")] ∧
      add_row ([] : Schema) Option.none [("k", PyVal.str "v")] true =
        Except.ok ⟨[("k", PyVal.dict [("rich_text", PyVal.list [PyVal.dict
          [("text", PyVal.dict [("content", PyVal.str "v")])]])])],
          [("k", "rich_text")], [("k", PropDef.mk "rich_text" [] [])],
          [Warn.newProperty "k" "rich_text", Warn.schemaUpdated ["k"]]⟩) ∧
    (("k", "rich_text") ∈ (AddRowEffects.mk
        [("k", PyVal.dict [("rich_text", PyVal.list [PyVal.dict
          [("text", PyVal.dict [("content", PyVal.str "v")])]])])]
        [("k", "rich_text")] [("k", PropDef.mk "rich_text" [] [])]
        [Warn.newProperty "k" "rich_text", Warn.schemaUpdated ["k"]]).new_fields ∧
    ("k", PyVal.dict [("rich_text", PyVal.list [PyVal.dict
      [("text", PyVal.dict [("content", PyVal.str (pyStr (PyVal.str "v")))])]])]) ∈
      (AddRowEffects.mk
        [("k", PyVal.dict [("rich_text", PyVal.list [PyVal.dict
          [("text", PyVal.dict [("content", PyVal.str "v")])]])])]
        [("k", "rich_text")] [("k", PropDef.mk "rich_text" [] [])]
        [Warn.newProperty "k" "rich_text", Warn.schemaUpdated ["k"]]).properties ∧
    Except.map (fun e2 => (e2.properties, e2.new_fields))
        (add_row ([] : Schema) Option.none [("k", PyVal.str "v")] true) =
      Except.map (fun e2 => (e2.properties, e2.new_fields))
        (add_row ([] : Schema) Option.none [("k", PyVal.str "v")] false)) :=
  ⟨⟨rfl, List.mem_cons_self _ _, rfl⟩,
    new_field_defaults_to_rich_text ([] : Schema) Option.none [("k", PyVal.str "v")]
      "k" (PyVal.str "v") true
      (AddRowEffects.mk
        [("k", PyVal.dict [("rich_text", PyVal.list [PyVal.dict
          [("text", PyVal.dict [("content", PyVal.str "v")])]])])]
        [("k", "rich_text")] [("k", PropDef.mk "rich_text" [] [])]
        [Warn.newProperty "k" "rich_text", Warn.schemaUpdated ["k"]])
      rfl (fun m hm => Option.noConfusion hm) (List.mem_cons_self _ _) rfl⟩

/-- C7: after a successful schema patch, `_update_schema` merges the
`{type: kind}`-formatted definitions into the cached schema purely
in memory — the result is exactly `dict.update` of the old cache with the
formatted entries, no re-fetched data enters — so every newly added
select-like field carries empty option sets; after a failed patch the
cached schema is unchanged. -/
theorem schema_patch_merges_optimistically (schema : Schema)
    (np : List (String × String)) (n t : String)
    (hnod : (np.map Prod.fst).Nodup) (hmem : (n, t) ∈ np) :
    (_update_schema schema np false).1 = schema ∧
    (_update_schema schema np true).1 =
      dictUpdate schema (np.map (fun p => (p.1, PropDef.mk p.2 [] []))) ∧
    List.lookup n (_update_schema schema np true).1 = some (PropDef.mk t [] []) := by
  refine ⟨rfl, rfl, ?_⟩
  show List.lookup n (dictUpdate schema (np.map (fun p => (p.1, PropDef.mk p.2 [] [])))) = _
  apply lookup_dictUpdate_mem
  · simpa [List.map_map, Function.comp] using hnod
  · exact List.mem_map.mpr ⟨(n, t), hmem, rfl⟩

/-- Witness for C7 at the patch `{x: select}` over the cache
`{a: rich_text}`. -/
theorem schema_patch_merges_optimistically_witness :
    (([("x", "select")].map Prod.fst).Nodup ∧
      (("x", "select") : String × String) ∈ [(("x" : String), ("select" : String))]) ∧
    ((_update_schema [("a", PropDef.mk "rich_text" [] [])] [("x", "select")] false).1 =
        [("a", PropDef.mk "rich_text" [] [])] ∧
    (_update_schema [("a", PropDef.mk "rich_text" [] [])] [("x", "select")] true).1 =
        dictUpdate [("a", PropDef.mk "rich_text" [] [])]
          ([("x", "select")].map (fun p => (p.1, PropDef.mk p.2 [] []))) ∧
    List.lookup "x"
        (_update_schema [("a", PropDef.mk "rich_text" [] [])] [("x", "select")] true).1 =
      some (PropDef.mk "select" [] [])) :=
  ⟨⟨by decide, List.mem_cons_self _ _⟩,
    schema_patch_merges_optimistically [("a", PropDef.mk "rich_text" [] [])]
      [("x", "select")] "x" "select" (by decide) (List.mem_cons_self _ _)⟩

/-- C8: a select-kind field whose schema options are non-empty and do not
contain the supplied value is skipped by `generate_valid_data`: the
per-field encode returns no output and the not-found warning without
raising, the batch's wire output equals that of the batch without the
field, the field is absent from the output, and the warning is reported;
all other fields encode exactly as they would have. -/
theorem select_value_not_in_options_skipped (schema : Schema) (f : String) (v : PyVal)
    (pd : PropDef) (d1 d2 : List (String × PyVal))
    (hlk : List.lookup f schema = some pd) (hty : pd.type = "select")
    (hne : pd.selectOptions ≠ [])
    (hmiss : pd.selectOptions.any (fun o => o == v) = false)
    (hothers : ∀ p ∈ d1 ++ d2, p.1 ≠ f) :
    encodeField schema f v = Except.ok (Option.none, [Warn.selectNotFound f v]) ∧
    Except.map Prod.fst (generate_valid_data schema (d1 ++ (f, v) :: d2)) =
      Except.map Prod.fst (generate_valid_data schema (d1 ++ d2)) ∧
    ∀ o ws, generate_valid_data schema (d1 ++ (f, v) :: d2) = Except.ok (o, ws) →
      List.lookup f o = Option.none ∧ Warn.selectNotFound f v ∈ ws := by
  have hstep := encodeField_select_miss schema f v pd hlk hty hmiss
  obtain ⟨houts, hwarn⟩ :=
    generate_valid_data_skip schema f v (Warn.selectNotFound f v) hstep d1 d2
  refine ⟨hstep, houts, ?_⟩
  intro o ws h
  refine ⟨?_, hwarn o ws h⟩
  cases hlo : List.lookup f o with
  | none => rfl
  | some w2 =>
    exfalso
    have hmem := lookup_mem hlo
    rw [h] at houts
    cases h2 : generate_valid_data schema (d1 ++ d2) with
    | error e => rw [h2] at houts; simp [Except.map] at houts
    | ok q =>
      obtain ⟨o2, ws2⟩ := q
      rw [h2] at houts
      simp only [Except.map, Except.ok.injEq] at houts
      obtain ⟨q2, hq2, hq3⟩ := generate_valid_data_key_mem schema (d1 ++ d2) o2 ws2 h2
        (f, w2) (houts ▸ hmem)
      exact hothers q2 hq2 hq3

/-- Witness for C8 at the spec's end-to-end scenario: schema
`{Name: title, Priority: select[Low, High]}`, input
`{Name: "Ship", Priority: "Medium"}`. -/
theorem select_value_not_in_options_skipped_witness :
    (List.lookup "Priority" [("Name", PropDef.mk "title" [] []),
        ("Priority", PropDef.mk "select" [PyVal.str "Low", PyVal.str "High"] [])] =
      some (PropDef.mk "select" [PyVal.str "Low", PyVal.str "High"] []) ∧
      ([PyVal.str "Low", PyVal.str "High"].any
        (fun o => o == PyVal.str "Medium")) = false) ∧
    (encodeField [("Name", PropDef.mk "title" [] []),
        ("Priority", PropDef.mk "select" [PyVal.str "Low", PyVal.str "High"] [])]
        "Priority" (PyVal.str "Medium") =
      Except.ok (Option.none, [Warn.selectNotFound "Priority" (PyVal.str "Medium")]) ∧
    Except.map Prod.fst (generate_valid_data
        [("Name", PropDef.mk "title" [] []),
          ("Priority", PropDef.mk "select" [PyVal.str "Low", PyVal.str "High"] [])]
        ([("Name", PyVal.str "Ship")] ++ ("Priority", PyVal.str "Medium") :: [])) =
      Except.map Prod.fst (generate_valid_data
        [("Name", PropDef.mk "title" [] []),
          ("Priority", PropDef.mk "select" [PyVal.str "Low", PyVal.str "High"] [])]
        ([("Name", PyVal.str "Ship")] ++ [])) ∧
    ∀ o ws, generate_valid_data
        [("Name", PropDef.mk "title" [] []),
          ("Priority", PropDef.mk "select" [PyVal.str "Low", PyVal.str "High"] [])]
        ([("Name", PyVal.str "Ship")] ++ ("Priority", PyVal.str "Medium") :: []) =
        Except.ok (o, ws) →
      List.lookup "Priority" o = Option.none ∧
        Warn.selectNotFound "Priority" (PyVal.str "Medium") ∈ ws) :=
  ⟨⟨rfl, rfl⟩,
    select_value_not_in_options_skipped
      [("Name", PropDef.mk "title" [] []),
        ("Priority", PropDef.mk "select" [PyVal.str "Low", PyVal.str "High"] [])]
      "Priority" (PyVal.str "Medium")
      (PropDef.mk "select" [PyVal.str "Low", PyVal.str "High"] [])
      [("Name", PyVal.str "Ship")] []
      rfl rfl (by intro h; cases h) rfl
      (by intro p hp; cases List.mem_singleton.mp (by simpa using hp); decide)⟩

/-- C9 counterexample: a record's key set does NOT always include every
property name of the cached schema.  With a cached schema containing the
field `"Weird"` of the unsupported kind `"status"`, the decoded record
carries only `id` and `title` — the schema loop assigns no key for an
unhandled kind. -/
theorem schema_key_missing_from_record_cex :
    (query [("Weird", PropDef.mk "status" [] [])]
        (PyVal.dict [("results", PyVal.list [PyVal.dict
          [("id", PyVal.str "p1"), ("properties", PyVal.dict [("X", PyVal.int 1)])]])])).1 =
      [[("id", PyVal.str "p1"), ("title", PyVal.str "Без названия")]] ∧
    List.lookup "Weird"
        (((query [("Weird", PropDef.mk "status" [] [])]
          (PyVal.dict [("results", PyVal.list [PyVal.dict
            [("id", PyVal.str "p1"),
              ("properties", PyVal.dict [("X", PyVal.int 1)])]])])).1).headD []) =
      Option.none :=
  ⟨rfl, rfl⟩

/-- C9 (amended): every record produced by `query` carries the keys `id`,
`title`, and every schema property whose declared kind is one of the
kinds the decode loop handles (a property of any other kind yields no
key); and a property that is missing or empty in the page's wire value
decodes to the defined placeholder — the empty string for the scalar
kinds, a singleton placeholder list for multi_select/people, and the
two-valued display for checkbox — never an exception. -/
theorem query_record_key_set (schema : Schema) (response : PyVal)
    (r : List (String × PyVal)) (fname : String) (d : PropDef)
    (hr : r ∈ (query schema response).1) :
    (List.lookup "id" r).isSome = true ∧
    (List.lookup "title" r).isSome = true ∧
    ((fname, d) ∈ schema → d.type ∈ decodeKinds →
      (List.lookup fname r).isSome = true) ∧
    decodeRichText (PyVal.dict []) = Except.ok (PyVal.str "") ∧
    decodeRichText (PyVal.dict [("rich_text", PyVal.list [])]) =
      Except.ok (PyVal.str "") ∧
    decodeSelect (PyVal.dict []) = Except.ok (PyVal.str "") ∧
    decodeMultiSelect (PyVal.dict []) = Except.ok (PyVal.list [PyVal.str ""]) ∧
    decodeDate (PyVal.dict []) = Except.ok (PyVal.str "") ∧
    decodeNumber (PyVal.dict []) = Except.ok (PyVal.str "") ∧
    decodeUrl (PyVal.dict []) = Except.ok (PyVal.str "") ∧
    decodeEmail (PyVal.dict []) = Except.ok (PyVal.str "") ∧
    decodePhone (PyVal.dict []) = Except.ok (PyVal.str "") ∧
    decodePeople (PyVal.dict []) = Except.ok (PyVal.list [PyVal.str ""]) ∧
    decodeCheckbox (PyVal.dict []) = Except.ok (PyVal.str "❌") ∧
    decodeCheckbox (PyVal.dict [("checkbox", PyVal.bool true)]) =
      Except.ok (PyVal.str "✅") := by
  obtain ⟨props, tv, pid, hdf⟩ := query_records_origin schema response r hr
  obtain ⟨pres, keys⟩ :=
    decodeFields_keys props tv schema [("id", pid), ("title", tv)] r hdf
  exact ⟨pres "id" rfl, pres "title" rfl, fun hmem hdk => keys fname d hmem hdk,
    rfl, rfl, rfl, rfl, rfl, rfl, rfl, rfl, rfl, rfl, rfl, rfl⟩

/-- Witness for C9 (amended) at the schema `{c: checkbox}` and a one-entry
response whose page carries no `c` property. -/
theorem query_record_key_set_witness :
    (([("id", PyVal.str "p1"), ("title", PyVal.str "Без названия"),
        ("c", PyVal.str "❌")] : List (String × PyVal)) ∈
      (query [("c", PropDef.mk "checkbox" [] [])]
        (PyVal.dict [("results", PyVal.list [PyVal.dict
          [("id", PyVal.str "p1"),
            ("properties", PyVal.dict [("X", PyVal.int 1)])]])])).1) ∧
    ((List.lookup "id" [("id", PyVal.str "p1"), ("title", PyVal.str "Без названия"),
        ("c", PyVal.str "❌")]).isSome = true ∧
    (List.lookup "title" [("id", PyVal.str "p1"), ("title", PyVal.str "Без названия"),
        ("c", PyVal.str "❌")]).isSome = true ∧
    ((("c", PropDef.mk "checkbox" [] []) ∈ [("c", PropDef.mk "checkbox" [] [])] →
      (PropDef.mk "checkbox" [] []).type ∈ decodeKinds →
      (List.lookup "c" [("id", PyVal.str "p1"), ("title", PyVal.str "Без названия"),
        ("c", PyVal.str "❌")]).isSome = true)) ∧
    decodeRichText (PyVal.dict []) = Except.ok (PyVal.str "") ∧
    decodeRichText (PyVal.dict [("rich_text", PyVal.list [])]) =
      Except.ok (PyVal.str "") ∧
    decodeSelect (PyVal.dict []) = Except.ok (PyVal.str "") ∧
    decodeMultiSelect (PyVal.dict []) = Except.ok (PyVal.list [PyVal.str ""]) ∧
    decodeDate (PyVal.dict []) = Except.ok (PyVal.str "") ∧
    decodeNumber (PyVal.dict []) = Except.ok (PyVal.str "") ∧
    decodeUrl (PyVal.dict []) = Except.ok (PyVal.str "") ∧
    decodeEmail (PyVal.dict []) = Except.ok (PyVal.str "") ∧
    decodePhone (PyVal.dict []) = Except.ok (PyVal.str "") ∧
    decodePeople (PyVal.dict []) = Except.ok (PyVal.list [PyVal.str ""]) ∧
    decodeCheckbox (PyVal.dict []) = Except.ok (PyVal.str "❌") ∧
    decodeCheckbox (PyVal.dict [("checkbox", PyVal.bool true)]) =
      Except.ok (PyVal.str "✅")) :=
  ⟨List.mem_singleton.mpr rfl,
    query_record_key_set [("c", PropDef.mk "checkbox" [] [])]
      (PyVal.dict [("results", PyVal.list [PyVal.dict
        [("id", PyVal.str "p1"), ("properties", PyVal.dict [("X", PyVal.int 1)])]])])
      [("id", PyVal.str "p1"), ("title", PyVal.str "Без названия"), ("c", PyVal.str "❌")]
      "c" (PropDef.mk "checkbox" [] [])
      (List.mem_singleton.mpr rfl)⟩

/-- C10: a query result entry whose `properties` mapping is absent or
empty (falsy) produces no record: the entry is skipped and a skip message
is reported for its page id, so the returned record list can be shorter
than the server's results list — its length never exceeds the number of
entries. -/
theorem rows_without_properties_skipped (schema : Schema) (entry : PyVal)
    (rest : List PyVal) (pid pv : PyVal)
    (hid : pyGetD entry "id" (PyVal.str "") = Except.ok pid)
    (hpv : pyGetD entry "properties" (PyVal.dict []) = Except.ok pv)
    (hfalsy : pyTruthy pv = false) :
    queryEntries schema (entry :: rest) =
      (match queryEntries schema rest with
       | Except.error e => Except.error e
       | Except.ok (rs, ws) => Except.ok (rs, Warn.skippedNoProps pid :: ws)) ∧
    ∀ entries rs ws, queryEntries schema entries = Except.ok (rs, ws) →
      rs.length ≤ entries.length := by
  constructor
  · rw [queryEntries, hid, hpv]
    simp only [hfalsy, Bool.false_eq_true, if_false]
  · exact queryEntries_length_le schema

/-- Witness for C10 at an entry with an empty `properties` dict followed
by a well-formed entry. -/
theorem rows_without_properties_skipped_witness :
    (pyGetD (PyVal.dict [("id", PyVal.str "p")]) "id" (PyVal.str "") =
        Except.ok (PyVal.str "p") ∧
      pyGetD (PyVal.dict [("id", PyVal.str "p")]) "properties" (PyVal.dict []) =
        Except.ok (PyVal.dict []) ∧
      pyTruthy (PyVal.dict []) = false) ∧
    (queryEntries ([] : Schema) (PyVal.dict [("id", PyVal.str "p")] ::
        [PyVal.dict [("id", PyVal.str "q"), ("properties", PyVal.dict [("X", PyVal.int 1)])]]) =
      (match queryEntries ([] : Schema)
          [PyVal.dict [("id", PyVal.str "q"), ("properties", PyVal.dict [("X", PyVal.int 1)])]] with
       | Except.error e => Except.error e
       | Except.ok (rs, ws) => Except.ok (rs, Warn.skippedNoProps (PyVal.str "p") :: ws)) ∧
    ∀ entries rs ws, queryEntries ([] : Schema) entries = Except.ok (rs, ws) →
      rs.length ≤ entries.length) :=
  ⟨⟨rfl, rfl, rfl⟩,
    rows_without_properties_skipped ([] : Schema) (PyVal.dict [("id", PyVal.str "p")])
      [PyVal.dict [("id", PyVal.str "q"), ("properties", PyVal.dict [("X", PyVal.int 1)])]]
      (PyVal.str "p") (PyVal.dict []) rfl rfl rfl⟩
